import Mathlib

/-!
# Player quiver (`crawl-ref/source/quiver.cc`)

A shallow embedding of the quiver code: the fire-order resolver
(`_get_fire_order`, `_item_matches`), the pack-slot lookup (`_get_pack_slot`),
the per-category memory (`set_quiver`, `empty_quiver`, `get_desired_item`,
`get_fire_item`), the controller (`on_item_fired`, `on_weapon_changed`,
`on_inv_quantity_changed`, `_maybe_fill_empty_slot`) and the save/load record.

Everything `quiver.cc` calls but does not define (item property queries, the
marshalling primitives, `you.weapon()`) is a field of a record that the
embedded functions take as an argument, so that every theorem holds for all
implementations of those services.
-/

namespace Quiver

/-! ## Types and constants declared outside `quiver.cc`

The enum constants below are declared in headers of the game (enum.h,
defines.h, quiver.h).  Their numeric values are not fixed by the
specification; the general theorems do not depend on them, and the sample
games only use that different names denote different values. -/

/-- Modelled from the spec: inventory capacity limit (`ENDOFPACK`, defines.h). -/
def ENDOFPACK : Nat := 52

/-- Modelled from the spec: object class of weapon items (enum.h). -/
def OBJ_WEAPONS : Int := 0
/-- Modelled from the spec: object class of ammunition items (enum.h). -/
def OBJ_MISSILES : Int := 1
/-- Modelled from the spec: object class of an empty item record (enum.h). -/
def OBJ_UNASSIGNED : Int := 100

/-- Modelled from the spec: ammunition subtype stone (enum.h). -/
def MI_STONE : Nat := 0
/-- Modelled from the spec: ammunition subtype arrow (enum.h). -/
def MI_ARROW : Nat := 1
/-- Modelled from the spec: ammunition subtype dart (enum.h). -/
def MI_DART : Nat := 3
/-- Modelled from the spec: ammunition subtype needle (enum.h). -/
def MI_NEEDLE : Nat := 4
/-- Modelled from the spec: ammunition subtype large rock (enum.h). -/
def MI_LARGE_ROCK : Nat := 5
/-- Modelled from the spec: ammunition subtype javelin (enum.h). -/
def MI_JAVELIN : Nat := 7
/-- Modelled from the spec: ammunition subtype throwing net (enum.h). -/
def MI_THROWING_NET : Nat := 8

/-- Modelled from the spec: weapon subtype club (enum.h). -/
def WPN_CLUB : Nat := 1
/-- Modelled from the spec: weapon subtype dagger (enum.h). -/
def WPN_DAGGER : Nat := 10
/-- Modelled from the spec: weapon subtype hand axe (enum.h). -/
def WPN_HAND_AXE : Nat := 18
/-- Modelled from the spec: weapon subtype spear (enum.h). -/
def WPN_SPEAR : Nat := 23
/-- Modelled from the spec: weapon subtype blowgun (enum.h). -/
def WPN_BLOWGUN : Nat := 30
/-- Modelled from the spec: weapon subtype sling (enum.h). -/
def WPN_SLING : Nat := 31
/-- Modelled from the spec: weapon subtype bow (enum.h). -/
def WPN_BOW : Nat := 32
/-- Modelled from the spec: weapon subtype longbow (enum.h). -/
def WPN_LONGBOW : Nat := 33
/-- Modelled from the spec: weapon subtype crossbow (enum.h). -/
def WPN_CROSSBOW : Nat := 34
/-- Modelled from the spec: weapon subtype hand crossbow (enum.h). -/
def WPN_HAND_CROSSBOW : Nat := 35

/-- Modelled from the spec: the "returning" special weapon property (enum.h). -/
def SPWPN_RETURNING : Int := 17

/-- Modelled from the spec: preference flag "matches current launcher". -/
def FIRE_LAUNCHER : Nat := 0x0001
/-- Modelled from the spec: preference flag for darts. -/
def FIRE_DART : Nat := 0x0002
/-- Modelled from the spec: preference flag for stones. -/
def FIRE_STONE : Nat := 0x0004
/-- Modelled from the spec: preference flag for daggers. -/
def FIRE_DAGGER : Nat := 0x0008
/-- Modelled from the spec: preference flag for javelins. -/
def FIRE_JAVELIN : Nat := 0x0010
/-- Modelled from the spec: preference flag for spears. -/
def FIRE_SPEAR : Nat := 0x0020
/-- Modelled from the spec: preference flag for hand axes. -/
def FIRE_HAND_AXE : Nat := 0x0040
/-- Modelled from the spec: preference flag for clubs. -/
def FIRE_CLUB : Nat := 0x0080
/-- Modelled from the spec: preference flag for large rocks. -/
def FIRE_ROCK : Nat := 0x0100
/-- Modelled from the spec: preference flag for throwing nets. -/
def FIRE_NET : Nat := 0x0200
/-- Modelled from the spec: preference flag for returning weapons. -/
def FIRE_RETURNING : Nat := 0x0400
/-- Modelled from the spec: preference flag "explicit-fire-inscribed". -/
def FIRE_INSCRIBED : Nat := 0x0800

/-- Modelled from the spec: number of weapon categories (`NUM_AMMO`, quiver.h);
the category domain is UnarmedThrow, Blowgun, Sling, Bow, Crossbow,
HandCrossbow. -/
def NUM_AMMO : Nat := 6

/-- Modelled from the spec: the weapon category enum `ammo_t` (quiver.h), a
value in `[AMMO_THROW, NUM_AMMO)` used as an index into the memory table. -/
abbrev ammo_t := Fin NUM_AMMO

/-- Modelled from the spec: category of hand-thrown items (no launcher). -/
def AMMO_THROW : ammo_t := ⟨0, by decide⟩
/-- Modelled from the spec: category of a wielded blowgun. -/
def AMMO_BLOWGUN : ammo_t := ⟨1, by decide⟩
/-- Modelled from the spec: category of a wielded sling. -/
def AMMO_SLING : ammo_t := ⟨2, by decide⟩
/-- Modelled from the spec: category of a wielded bow. -/
def AMMO_BOW : ammo_t := ⟨3, by decide⟩
/-- Modelled from the spec: category of a wielded crossbow. -/
def AMMO_CROSSBOW : ammo_t := ⟨4, by decide⟩
/-- Modelled from the spec: category of a wielded hand crossbow. -/
def AMMO_HAND_CROSSBOW : ammo_t := ⟨5, by decide⟩

/-- Modelled from the spec: launch classification of a projectile relative to
the wielded weapon (`launch_retval`, enum.h): fumbled, launched or thrown. -/
inductive launch_retval where
  | LRET_FUMBLED
  | LRET_LAUNCHED
  | LRET_THROWN
  deriving DecidableEq, Repr

export launch_retval (LRET_FUMBLED LRET_LAUNCHED LRET_THROWN)

/-- Modelled from the spec: the item record `item_def` (externs.h) with the
fields that identify an item; `quiver.cc` itself reads `base_type`,
`sub_type`, `special`, `quantity`, `link`, `slot` and `inscription`. -/
structure item_def where
  base_type : Int
  sub_type : Nat
  plus : Int
  plus2 : Int
  special : Int
  colour : Nat
  flags : Nat
  quantity : Int
  link : Int
  slot : Int
  inscription : String
  deriving DecidableEq, Repr

/-- Modelled from the spec: the link value of an item that lies in no item
list (`NON_ITEM`, defines.h). -/
def NON_ITEM : Int := 27000

/-- Modelled from the spec: the default-constructed `item_def()`, an
"invalid/empty" snapshot: no object class, zero quantity. -/
def item_def.new : item_def :=
  { base_type := OBJ_UNASSIGNED, sub_type := 0, plus := 0, plus2 := 0,
    special := 0, colour := 0, flags := 0, quantity := 0, link := NON_ITEM,
    slot := 0, inscription := "" }

/-- Item property queries that `quiver.cc` consumes as black-box services
(itemprop.cc, items.cc, item_use.cc, stuff.cc); each is a parameter. -/
structure Externs where
  /-- The query `is_valid_item(item)`. -/
  is_valid_item : item_def → Bool
  /-- The query `is_launched(&you, weapon, item)`; the weapon pointer may be NULL. -/
  is_launched : Option item_def → item_def → launch_retval
  /-- The query `item.launched_by(launcher)`. -/
  launched_by : item_def → item_def → Bool
  /-- The query `is_throwable(item, you.body_size())`. -/
  is_throwable : item_def → Bool
  /-- The query `item_ident(item, ISFLAG_KNOW_TYPE)`. -/
  item_ident_know_type : item_def → Bool
  /-- The query `items_similar(a, b)`. -/
  items_similar : item_def → item_def → Bool
  /-- The query `items_stack(a, b, force)`. -/
  items_stack : item_def → item_def → Bool → Bool
  /-- The query `is_range_weapon(item)`. -/
  is_range_weapon : item_def → Bool
  /-- The helper `index_to_letter(slot)`. -/
  index_to_letter : Int → Char

/-- The externally configured options read by the quiver: `fire_items_start` is
the inventory index of the first item offered for firing (the option parser
stores the index of an inventory letter, so it is a natural number), and
`fire_order` is the preference list of `fire_type` bitmasks. -/
structure game_options where
  fire_items_start : Nat
  fire_order : List Nat

/-- The part of the global `you` that the quiver reads or writes: the inventory
`you.inv` (slots `0 .. ENDOFPACK-1`), the wielded slot `you.equip[EQ_WEAPON]`
(`-1` when nothing is wielded), `you.attribute[ATTR_HELD]`, the flag
`you.redraw_quiver`, and the result of the accessor `you.weapon()` (`none` for
a NULL pointer). -/
structure player where
  inv : Nat → item_def
  equip_weapon : Int
  attribute_held : Int
  redraw_quiver : Bool
  weapon : Option item_def

/-- The ambient state of the game as seen from `quiver.cc`. -/
structure Game where
  X : Externs
  Options : game_options
  you : player

/-! ## String helpers -/

/-- Substring search over character lists: is `needle` an infix of `hay`? -/
def has_infix (needle hay : List Char) : Bool :=
  hay.tails.any fun t => needle.isPrefixOf t

/-- The characters seen through `s.c_str()`: those before the first NUL. -/
def c_str (s : String) : List Char :=
  s.data.takeWhile fun ch => ch != '\x00'

/-- The test `strstr(item.inscription.c_str(), "=f")` of `_get_fire_order`. -/
def inscribed_no_fire (item : item_def) : Bool :=
  has_infix "=f".data (c_str item.inscription)

/-- The test `item.inscription.find("+f", 0) != std::string::npos`. -/
def inscribed_fire (item : item_def) : Bool :=
  has_infix "+f".data item.inscription.data

/-! ## Helpers of `quiver.cc` -/

/-- Helper for `_get_fire_order`: does `item` satisfy the preference entry
`types`, which may hold more than one `fire_type` flag?  The source asserts
`is_valid_item(item)` on entry; its only caller checks validity first. -/
def _item_matches (g : Game) (item : item_def) (types : Nat)
    (launcher : Option item_def) : Bool :=
  if types &&& FIRE_INSCRIBED ≠ 0 ∧ inscribed_fire item = true then true
  else if item.base_type = OBJ_MISSILES then
    if types &&& FIRE_DART ≠ 0 ∧ item.sub_type = MI_DART then true
    else if types &&& FIRE_STONE ≠ 0 ∧ item.sub_type = MI_STONE then true
    else if types &&& FIRE_JAVELIN ≠ 0 ∧ item.sub_type = MI_JAVELIN then true
    else if types &&& FIRE_ROCK ≠ 0 ∧ item.sub_type = MI_LARGE_ROCK then true
    else if types &&& FIRE_NET ≠ 0 ∧ item.sub_type = MI_THROWING_NET then true
    else if types &&& FIRE_LAUNCHER ≠ 0 then
      match launcher with
      | some l => g.X.launched_by item l
      | none => false
    else false
  else if item.base_type = OBJ_WEAPONS ∧ g.X.is_throwable item = true then
    if types &&& FIRE_RETURNING ≠ 0 ∧ item.special = SPWPN_RETURNING
        ∧ g.X.item_ident_know_type item = true then true
    else if types &&& FIRE_DAGGER ≠ 0 ∧ item.sub_type = WPN_DAGGER then true
    else if types &&& FIRE_SPEAR ≠ 0 ∧ item.sub_type = WPN_SPEAR then true
    else if types &&& FIRE_HAND_AXE ≠ 0 ∧ item.sub_type = WPN_HAND_AXE then true
    else if types &&& FIRE_CLUB ≠ 0 ∧ item.sub_type = WPN_CLUB then true
    else false
  else false

/-- Stack-compatibility test `_items_similar(a, b, force)`. -/
def _items_similar (g : Game) (a b : item_def) (force : Bool) : Bool :=
  if force = false then g.X.items_similar a b && decide (a.slot = b.slot)
  else g.X.items_stack a b force

/-- The function `_get_pack_slot`: the inventory slot holding an item that
looks like `item`, or `-1`.  Each `for` loop with an early `return i` is the
first index of `0 .. ENDOFPACK-1` passing the loop's test. -/
def _get_pack_slot (g : Game) (item : item_def) : Int :=
  if g.X.is_valid_item item = false then -1
  else
    match (List.range ENDOFPACK).find? fun i =>
        decide ((g.you.inv i).quantity ≠ 0) && _items_similar g item (g.you.inv i) false with
    | some i => (i : Int)
    | none =>
      match (List.range ENDOFPACK).find? fun i =>
          decide ((g.you.inv i).quantity ≠ 0) && _items_similar g item (g.you.inv i) true with
      | some i => (i : Int)
      | none => -1

/-! ## The fire-order resolver -/

/-- The expression `i_inv & 0xffff` on a two's-complement `int`: the low 16
bits, a value in `0 .. 65535`. -/
def and_0xffff (x : Int) : Int := x % 65536

/-- Conversion of an `unsigned int` bit pattern to `int` (two's complement). -/
def int_of_unsigned (u : Nat) : Int :=
  if u < 2 ^ 31 then (u : Int) else (u : Int) - 2 ^ 32

/-- The sort key `(i_flags<<16) | (i_inv & 0xffff)` pushed on the `int`
vector: `i_flags` is an `unsigned int`, so the shift wraps modulo `2^32`, the
bitwise or is taken on unsigned values and the result is stored as an `int`. -/
def pack_key (i_flags : Nat) (i_inv : Int) : Int :=
  int_of_unsigned (((i_flags <<< 16) % 2 ^ 32) ||| (and_0xffff i_inv).toNat)

/-- The inner loop of `_get_fire_order` over `Options.fire_order`, started at
index `i_flags` with the entries `flags` still to scan: the index of the first
entry that `item` matches, if any (the loop `break`s there). -/
def _get_fire_order_flags (g : Game) (item : item_def) (launcher : Option item_def) :
    List Nat → Nat → Option Nat
  | [], _ => none
  | t :: rest, i_flags =>
    if _item_matches g item t launcher = true then some i_flags
    else _get_fire_order_flags g item launcher rest (i_flags + 1)

/-- The main loop of `_get_fire_order` (player not held): `n` iterations are
left, `i_inv` is the loop variable and `order` the vector built so far. -/
def _get_fire_order_pack (g : Game) (ignore_inscription_etc : Bool)
    (launcher : Option item_def) : Nat → Nat → List Int → List Int
  | 0, _, order => order
  | n + 1, i_inv, order =>
    let item := g.you.inv i_inv
    if g.X.is_valid_item item = false then
      _get_fire_order_pack g ignore_inscription_etc launcher n (i_inv + 1) order
    else if g.you.equip_weapon = (i_inv : Int) then
      _get_fire_order_pack g ignore_inscription_etc launcher n (i_inv + 1) order
    else if g.X.is_launched g.you.weapon item = LRET_FUMBLED then
      _get_fire_order_pack g ignore_inscription_etc launcher n (i_inv + 1) order
    else if ignore_inscription_etc = false ∧ inscribed_no_fire item = true then
      _get_fire_order_pack g ignore_inscription_etc launcher n (i_inv + 1) order
    else
      match _get_fire_order_flags g item launcher g.Options.fire_order 0 with
      | some i_flags =>
        _get_fire_order_pack g ignore_inscription_etc launcher n (i_inv + 1)
          (order ++ [pack_key i_flags (i_inv : Int)])
      | none =>
        _get_fire_order_pack g ignore_inscription_etc launcher n (i_inv + 1) order

/-- The loop of the held branch of `_get_fire_order` (launcher is a blowgun):
`n` iterations are left, `i_inv` is the loop variable. -/
def _get_fire_order_held (g : Game) (launcher : item_def) :
    Nat → Nat → List Int → List Int
  | 0, _, order => order
  | n + 1, i_inv, order =>
    if g.X.is_valid_item (g.you.inv i_inv) = true
        ∧ g.X.launched_by (g.you.inv i_inv) launcher = true then
      _get_fire_order_held g launcher n (i_inv + 1) (order ++ [(i_inv : Int)])
    else
      _get_fire_order_held g launcher n (i_inv + 1) order

/-- The method `player_quiver::_get_fire_order(order, ignore_inscription_etc,
launcher)`: the contents of the vector `order` after the call.  Both loops run
`i_inv` from `inv_start` while `i_inv < ENDOFPACK`, that is
`ENDOFPACK - inv_start` times; `std::sort` on `int`s is the ascending sort. -/
def _get_fire_order (g : Game) (order : List Int) (ignore_inscription_etc : Bool)
    (launcher : Option item_def) : List Int :=
  let inv_start : Nat := if ignore_inscription_etc = true then 0 else g.Options.fire_items_start
  if g.you.attribute_held ≠ 0 then
    match launcher with
    | some l =>
      if l.sub_type = WPN_BLOWGUN then
        _get_fire_order_held g l (ENDOFPACK - inv_start) inv_start order
      else order
    | none => order
  else
    ((_get_fire_order_pack g ignore_inscription_etc launcher
        (ENDOFPACK - inv_start) inv_start order).insertionSort (· ≤ ·)).map and_0xffff

/-! ## The per-category memory -/

/-- The data members of `player_quiver`: the Last Seen Weapon, the Active
Category and the table `m_last_used_of_type[NUM_AMMO]`, a fixed-size array
with one snapshot per category. -/
structure player_quiver where
  m_last_weapon : item_def
  m_last_used_type : ammo_t
  m_last_used_of_type : Mathlib.Vector item_def NUM_AMMO

/-- The constructor `player_quiver::player_quiver()`: the active category is
`AMMO_THROW`, every item member is default-constructed. -/
def player_quiver.new : player_quiver :=
  { m_last_weapon := item_def.new,
    m_last_used_type := AMMO_THROW,
    m_last_used_of_type := Mathlib.Vector.replicate NUM_AMMO item_def.new }

/-- The method `player_quiver::get_desired_item`: the pair `(*item_out,
*slot_out)`. -/
def get_desired_item (g : Game) (q : player_quiver) : item_def × Int :=
  let slot := _get_pack_slot g (q.m_last_used_of_type.get q.m_last_used_type)
  if slot = -1 then (q.m_last_used_of_type.get q.m_last_used_type, slot)
  else (g.you.inv slot.toNat, slot)

/-- The first element `order[0]` of a non-empty vector, as used by
`get_fire_item` after testing `order.size()`. -/
def order_head (order : List Int) (dflt : Int) : Int :=
  match order with
  | [] => dflt
  | x :: _ => x

/-- The text `make_stringf("Nothing suitable (fire_items_start = '%c').", c)`. -/
def reason_fire_items_start (c : Char) : String :=
  "Nothing suitable (fire_items_start = \x27" ++ String.singleton c ++ "\x27)."

/-- The text
`make_stringf("Nothing suitable (ignored '=f'-inscribed item on '%c').", c)`. -/
def reason_inscribed (c : Char) : String :=
  "Nothing suitable (ignored \x27=f\x27-inscribed item on \x27" ++ String.singleton c
    ++ "\x27)."

/-- The method `player_quiver::get_fire_item(no_item_reason)`: the returned
slot and the contents of `*no_item_reason` afterwards.  The argument is `none`
for a NULL pointer and `some s` for a pointer to a string currently holding
`s`. -/
def get_fire_item (g : Game) (q : player_quiver) (no_item_reason : Option String) :
    Int × Option String :=
  let slot0 := (get_desired_item g q).2
  let slot : Int :=
    if slot0 = -1 then order_head (_get_fire_order g [] false g.you.weapon) slot0
    else slot0
  if slot = -1 then
    let full_fire_order := _get_fire_order g [] true g.you.weapon
    match no_item_reason with
    | none => (slot, none)
    | some _ =>
      match full_fire_order with
      | [] => (slot, some "No suitable missiles.")
      | skipped_item :: _ =>
        if skipped_item < (g.Options.fire_items_start : Int) then
          (slot, some (reason_fire_items_start
            (g.X.index_to_letter (g.Options.fire_items_start : Int))))
        else
          (slot, some (reason_inscribed (g.X.index_to_letter skipped_item)))
  else (slot, no_item_reason)

/-- The method `player_quiver::set_quiver(item, ammo_type)`: the quiver and the
player (whose `redraw_quiver` flag is written) afterwards. -/
def set_quiver (q : player_quiver) (you : player) (item : item_def) (ammo_type : ammo_t) :
    player_quiver × player :=
  ({ q with
      m_last_used_of_type := q.m_last_used_of_type.set ammo_type { item with quantity := 1 },
      m_last_used_type := ammo_type },
   { you with redraw_quiver := true })

/-- The method `player_quiver::empty_quiver(ammo_type)`. -/
def empty_quiver (q : player_quiver) (you : player) (ammo_type : ammo_t) :
    player_quiver × player :=
  ({ q with
      m_last_used_of_type :=
        q.m_last_used_of_type.set ammo_type { item_def.new with quantity := 0 },
      m_last_used_type := ammo_type },
   { you with redraw_quiver := true })

/-! ## Save and load -/

/-- The marshalling primitives of tags.cc, consumed as black-box services.  A
stream is a list of cells of type `β`: a `marshall` function gives the cells it
appends to the writer, an `unmarshall` function gives the value it decodes and
the input left in the reader. -/
structure Marshal (β : Type) where
  marshallShort : Int → List β
  marshallLong : Int → List β
  marshallItem : item_def → List β
  unmarshallShort : List β → Int × List β
  unmarshallLong : List β → Int × List β
  unmarshallItem : List β → item_def × List β

/-- The conversion `short(x)` of an `int` to a 16-bit signed value. -/
def short_of_int (x : Int) : Int := (x + 2 ^ 15) % 2 ^ 16 - 2 ^ 15

/-- The constant `QUIVER_COOKIE = short(0xb015)`. -/
def QUIVER_COOKIE : Int := short_of_int 0xb015

/-- The conversion of a marshalled `long` (four bytes) to `unsigned long`, as
in `const unsigned long count = unmarshallLong(inf)`. -/
def unsigned_long_of (x : Int) : Nat := (x % 2 ^ 32).toNat

/-- The method `player_quiver::save(outf)`: the contents of the writer
afterwards. -/
def save {β : Type} (M : Marshal β) (q : player_quiver) (outf : List β) : List β :=
  let outf1 := outf ++ M.marshallShort QUIVER_COOKIE
  let outf2 := outf1 ++ M.marshallItem q.m_last_weapon
  let outf3 := outf2 ++ M.marshallLong (q.m_last_used_type.val : Int)
  let outf4 := outf3 ++ M.marshallLong (NUM_AMMO : Int)
  q.m_last_used_of_type.toList.foldl (fun o item => o ++ M.marshallItem item) outf4

/-- The loop `for (i = 0; i < count; i++) unmarshallItem(inf,
m_last_used_of_type[i])` of `load`, run after `count <= NUM_AMMO` has been
asserted: the table and the reader afterwards. -/
def load_items {β : Type} (M : Marshal β) (count : Nat)
    (table : Mathlib.Vector item_def NUM_AMMO) (inf : List β) :
    Mathlib.Vector item_def NUM_AMMO × List β :=
  ((List.finRange NUM_AMMO).take count).foldl
    (fun st i => (st.1.set i (M.unmarshallItem st.2).1, (M.unmarshallItem st.2).2))
    (table, inf)

/-- The method `player_quiver::load(inf)`: `none` when one of its three
assertions fires, else the quiver and the reader afterwards. -/
def load {β : Type} (M : Marshal β) (q : player_quiver) (inf : List β) :
    Option (player_quiver × List β) :=
  let cooky := (M.unmarshallShort inf).1
  let inf1 := (M.unmarshallShort inf).2
  if cooky ≠ QUIVER_COOKIE then none
  else
    let m_last_weapon := (M.unmarshallItem inf1).1
    let inf2 := (M.unmarshallItem inf1).2
    let last_used := (M.unmarshallLong inf2).1
    let inf3 := (M.unmarshallLong inf2).2
    if h : (AMMO_THROW.val : Int) ≤ last_used ∧ last_used < (NUM_AMMO : Int) then
      let count := unsigned_long_of (M.unmarshallLong inf3).1
      let inf4 := (M.unmarshallLong inf3).2
      if count ≤ NUM_AMMO then
        let r := load_items M count q.m_last_used_of_type inf4
        some ({ m_last_weapon := m_last_weapon,
                m_last_used_type := ⟨last_used.toNat, by omega⟩,
                m_last_used_of_type := r.1 }, r.2)
      else none
    else none

/-! ## The quiver controller -/

/-- The function `_get_weapon_ammo_type(weapon)`: the type of ammo used by the
equipped weapon, or `AMMO_THROW` if it is not a launcher (NULL is `none`). -/
def _get_weapon_ammo_type (weapon : Option item_def) : ammo_t :=
  match weapon with
  | none => AMMO_THROW
  | some w =>
    if w.base_type ≠ OBJ_WEAPONS then AMMO_THROW
    else if w.sub_type = WPN_BLOWGUN then AMMO_BLOWGUN
    else if w.sub_type = WPN_SLING then AMMO_SLING
    else if w.sub_type = WPN_BOW ∨ w.sub_type = WPN_LONGBOW then AMMO_BOW
    else if w.sub_type = WPN_CROSSBOW then AMMO_CROSSBOW
    else if w.sub_type = WPN_HAND_CROSSBOW then AMMO_HAND_CROSSBOW
    else AMMO_THROW

/-- The condition `weapon && item.launched_by(*weapon)`. -/
def weapon_launches (g : Game) (item : item_def) : Bool :=
  match g.you.weapon with
  | some w => g.X.launched_by item w
  | none => false

/-- The method `player_quiver::on_item_fired(item, explicitly_chosen)`: the
quiver and the player (whose `redraw_quiver` flag may be written)
afterwards. -/
def on_item_fired (g : Game) (q : player_quiver) (item : item_def)
    (explicitly_chosen : Bool) : player_quiver × player :=
  if explicitly_chosen = false then
    (q, { g.you with redraw_quiver := true })
  else if weapon_launches g item = true then
    let t := _get_weapon_ammo_type g.you.weapon
    ({ q with
        m_last_used_of_type := q.m_last_used_of_type.set t { item with quantity := 1 },
        m_last_used_type := t },
     { g.you with redraw_quiver := true })
  else if g.X.is_launched g.you.weapon item = LRET_FUMBLED then
    (q, g.you)
  else
    ({ q with
        m_last_used_of_type :=
          q.m_last_used_of_type.set AMMO_THROW { item with quantity := 1 },
        m_last_used_type := AMMO_THROW },
     { g.you with redraw_quiver := true })

/-- The launch mode that `_maybe_fill_empty_slot` looks for:
`(weapon && is_range_weapon(*weapon)) ? LRET_LAUNCHED : LRET_THROWN`. -/
def desired_ret (g : Game) : launch_retval :=
  match g.you.weapon with
  | some w => if g.X.is_range_weapon w = true then LRET_LAUNCHED else LRET_THROWN
  | none => LRET_THROWN

/-- The scan loop of `_maybe_fill_empty_slot` over the fire order: the
inventory item `you.inv[order[i]]` at the first position whose launch
classification is `desired_ret`, if there is one (the loop `break`s there). -/
def _maybe_fill_empty_slot_scan (g : Game) : List Int → Option item_def
  | [] => none
  | x :: rest =>
    if g.X.is_launched g.you.weapon (g.you.inv x.toNat) = desired_ret g then
      some (g.you.inv x.toNat)
    else _maybe_fill_empty_slot_scan g rest

/-- The second half of `_maybe_fill_empty_slot`, reached when the checked
snapshot is not kept: `slot` is the local of that name and `unquiver_weapon`
the flag set by the first half. -/
def _maybe_fill_empty_slot_refill (g : Game) (q : player_quiver) (slot : ammo_t)
    (unquiver_weapon : Bool) : player_quiver :=
  let order := _get_fire_order g [] false g.you.weapon
  if unquiver_weapon = true ∧ order = [] then
    { q with
        m_last_used_of_type :=
          q.m_last_used_of_type.set slot
            { q.m_last_used_of_type.get slot with quantity := 0 } }
  else
    match _maybe_fill_empty_slot_scan g order with
    | some item =>
      { q with
          m_last_used_of_type :=
            q.m_last_used_of_type.set slot { item with quantity := 1 } }
    | none => q

/-- The method `player_quiver::_maybe_fill_empty_slot()`: the quiver
afterwards.  The local `slot` is the category of the wielded weapon,
`_get_weapon_ammo_type(you.weapon())`. -/
def _maybe_fill_empty_slot (g : Game) (q : player_quiver) : player_quiver :=
  let slot := _get_weapon_ammo_type g.you.weapon
  if g.X.is_valid_item (q.m_last_used_of_type.get slot) = true then
    if (q.m_last_used_of_type.get slot).link = g.you.equip_weapon then
      _maybe_fill_empty_slot_refill g q slot true
    else q
  else _maybe_fill_empty_slot_refill g q slot false

/-- The method `player_quiver::on_weapon_changed()`: the quiver afterwards. -/
def on_weapon_changed (g : Game) (q : player_quiver) : player_quiver :=
  let q1 : player_quiver :=
    match g.you.weapon with
    | none =>
      if q.m_last_weapon.base_type ≠ OBJ_UNASSIGNED then
        { q with
            m_last_weapon := { q.m_last_weapon with base_type := OBJ_UNASSIGNED },
            m_last_used_type := AMMO_THROW }
      else q
    | some weapon =>
      if _items_similar g weapon q.m_last_weapon true = false then
        { q with
            m_last_weapon := weapon,
            m_last_used_type := _get_weapon_ammo_type (some weapon) }
      else q
  _maybe_fill_empty_slot g q1

/-- The method `player_quiver::on_inv_quantity_changed(slot, amt)`: the quiver
and the player afterwards.  The call `get_fire_item()` passes no reason
pointer. -/
def on_inv_quantity_changed (g : Game) (q : player_quiver) (slot : Int) (_amt : Int) :
    player_quiver × player :=
  if g.X.is_launched g.you.weapon (g.you.inv slot.toNat) = LRET_FUMBLED then (q, g.you)
  else if (q.m_last_used_of_type.get q.m_last_used_type).base_type = OBJ_UNASSIGNED then
    (_maybe_fill_empty_slot g q, { g.you with redraw_quiver := true })
  else if (get_fire_item g q none).1 = slot then
    (q, { g.you with redraw_quiver := true })
  else (q, g.you)

/-! ## Auxiliary definitions used to state the properties -/

/-- The filter of the main loop of `_get_fire_order` at slot `i`: the item is
valid, the slot is not the wielded one, the item is not fumbled and, unless
exclusions are ignored, its inscription does not hold the marker "=f". -/
def fire_eligible (g : Game) (ignore_inscription_etc : Bool) (i : Nat) : Prop :=
  g.X.is_valid_item (g.you.inv i) = true
    ∧ g.you.equip_weapon ≠ (i : Int)
    ∧ g.X.is_launched g.you.weapon (g.you.inv i) ≠ LRET_FUMBLED
    ∧ (ignore_inscription_etc = false → inscribed_no_fire (g.you.inv i) = false)

/-- The key that one iteration of the main loop of `_get_fire_order` pushes for
slot `i`, if it pushes one. -/
def fire_key (g : Game) (ignore_inscription_etc : Bool) (launcher : Option item_def)
    (i : Nat) : Option Int :=
  if g.X.is_valid_item (g.you.inv i) = false then none
  else if g.you.equip_weapon = (i : Int) then none
  else if g.X.is_launched g.you.weapon (g.you.inv i) = LRET_FUMBLED then none
  else if ignore_inscription_etc = false ∧ inscribed_no_fire (g.you.inv i) = true then none
  else
    (_get_fire_order_flags g (g.you.inv i) launcher g.Options.fire_order 0).map
      fun i_flags => pack_key i_flags (i : Int)

/-- The preference-category index of an item: `c` is the index of the first
entry of `Options.fire_order` that the item matches. -/
def first_match_index (g : Game) (launcher : Option item_def) (item : item_def)
    (c : Nat) : Prop :=
  (∃ t, g.Options.fire_order[c]? = some t ∧ _item_matches g item t launcher = true)
    ∧ ∀ j t, j < c → g.Options.fire_order[j]? = some t →
        _item_matches g item t launcher = false

/-- The cookie that `load` decodes from the head of the record. -/
def record_cookie {β : Type} (M : Marshal β) (inf : List β) : Int :=
  (M.unmarshallShort inf).1

/-- The active category that `load` decodes from the record, as an integer. -/
def record_category {β : Type} (M : Marshal β) (inf : List β) : Int :=
  (M.unmarshallLong (M.unmarshallItem (M.unmarshallShort inf).2).2).1

/-- The stored table length that `load` decodes from the record (a `long`). -/
def record_length {β : Type} (M : Marshal β) (inf : List β) : Int :=
  (M.unmarshallLong (M.unmarshallLong (M.unmarshallItem (M.unmarshallShort inf).2).2).2).1

/-- The composite comparison key of the specification: keys (category index,
slot index) are compared by category index first, then by slot index. -/
def composite_le (a b : Nat × Nat) : Prop :=
  a.1 < b.1 ∨ (a.1 = b.1 ∧ a.2 ≤ b.2)

instance composite_le_decidable : DecidableRel composite_le :=
  fun a b => inferInstanceAs (Decidable (a.1 < b.1 ∨ (a.1 = b.1 ∧ a.2 ≤ b.2)))

/-- The specification's classification of slot `i` (steps 3 and 4 of the
resolver): a slot that is not skipped gets the pair (index of the first
preference category its item matches, slot index); skipped slots and items
matching no category get nothing. -/
def fire_pair (g : Game) (ignoreExclusions : Bool) (launcher : Option item_def)
    (i : Nat) : Option (Nat × Nat) :=
  if g.X.is_valid_item (g.you.inv i) = false then none
  else if g.you.equip_weapon = (i : Int) then none
  else if g.X.is_launched g.you.weapon (g.you.inv i) = LRET_FUMBLED then none
  else if ignoreExclusions = false ∧ inscribed_no_fire (g.you.inv i) = true then none
  else
    (_get_fire_order_flags g (g.you.inv i) launcher g.Options.fire_order 0).map
      fun category_index => (category_index, i)

/-- The resolver as the specification words it for a player who is not held
(steps 1 and 3 to 6): scan the slots from the start offset to the capacity
limit, classify them, rank the pairs by the composite key (category index,
slot index) and return the slot indices. -/
def fire_order_by_composite_key (g : Game) (ignoreExclusions : Bool)
    (launcher : Option item_def) : List Int :=
  (((List.range' (if ignoreExclusions = true then 0 else g.Options.fire_items_start)
      (ENDOFPACK - (if ignoreExclusions = true then 0 else g.Options.fire_items_start))).filterMap
        (fire_pair g ignoreExclusions launcher)).insertionSort composite_le).map
    fun p => (p.2 : Int)

/-- Exact match of the pack-slot lookup: inventory slot `i` holds a non-zero
quantity and its item is `items_similar` to `item` with an equal `slot`
field. -/
def exact_match (g : Game) (item : item_def) (i : Nat) : Prop :=
  (g.you.inv i).quantity ≠ 0 ∧ g.X.items_similar item (g.you.inv i) = true
    ∧ item.slot = (g.you.inv i).slot

/-- Forced match of the pack-slot lookup: inventory slot `i` holds a non-zero
quantity and its item stacks with `item` when stacking is forced. -/
def forced_match (g : Game) (item : item_def) (i : Nat) : Prop :=
  (g.you.inv i).quantity ≠ 0 ∧ g.X.items_stack item (g.you.inv i) true = true

instance exact_match_decidable (g : Game) (item : item_def) (i : Nat) :
    Decidable (exact_match g item i) :=
  inferInstanceAs (Decidable ((g.you.inv i).quantity ≠ 0
    ∧ g.X.items_similar item (g.you.inv i) = true ∧ item.slot = (g.you.inv i).slot))

instance forced_match_decidable (g : Game) (item : item_def) (i : Nat) :
    Decidable (forced_match g item i) :=
  inferInstanceAs (Decidable ((g.you.inv i).quantity ≠ 0
    ∧ g.X.items_stack item (g.you.inv i) true = true))

/-- The single-kind preference flags of `fire_type`. -/
def single_kind_flags : List Nat :=
  [FIRE_LAUNCHER, FIRE_DART, FIRE_STONE, FIRE_DAGGER, FIRE_JAVELIN, FIRE_SPEAR,
    FIRE_HAND_AXE, FIRE_CLUB, FIRE_ROCK, FIRE_NET, FIRE_RETURNING, FIRE_INSCRIBED]

/-! ## Sample instances

Concrete item services, items and games on which the embedded code is
evaluated. -/

/-- Sample ammunition rule: which ammunition subtype a launcher subtype fires. -/
def sample_launched_by (item launcher : item_def) : Bool :=
  decide (item.base_type = OBJ_MISSILES ∧ launcher.base_type = OBJ_WEAPONS
    ∧ ((launcher.sub_type = WPN_BOW ∧ item.sub_type = MI_ARROW)
      ∨ (launcher.sub_type = WPN_LONGBOW ∧ item.sub_type = MI_ARROW)
      ∨ (launcher.sub_type = WPN_BLOWGUN ∧ item.sub_type = MI_NEEDLE)
      ∨ (launcher.sub_type = WPN_SLING ∧ item.sub_type = MI_STONE)
      ∨ (launcher.sub_type = WPN_HAND_CROSSBOW ∧ item.sub_type = MI_DART)))

/-- Sample throwing rule: the ammunition and weapon subtypes thrown by hand. -/
def sample_thrown (item : item_def) : Bool :=
  decide ((item.base_type = OBJ_MISSILES
      ∧ (item.sub_type = MI_STONE ∨ item.sub_type = MI_DART ∨ item.sub_type = MI_JAVELIN
        ∨ item.sub_type = MI_LARGE_ROCK ∨ item.sub_type = MI_THROWING_NET))
    ∨ (item.base_type = OBJ_WEAPONS
      ∧ (item.sub_type = WPN_DAGGER ∨ item.sub_type = WPN_SPEAR
        ∨ item.sub_type = WPN_HAND_AXE ∨ item.sub_type = WPN_CLUB)))

/-- Sample identity test: same class, subtype, enchantment and special property. -/
def sample_similar (a b : item_def) : Bool :=
  decide (a.base_type = b.base_type ∧ a.sub_type = b.sub_type ∧ a.plus = b.plus
    ∧ a.plus2 = b.plus2 ∧ a.special = b.special)

/-- Sample implementation of the item services, a simplified rendering of the
item rules of the game. -/
def sample_externs : Externs :=
  { is_valid_item := fun it => decide (it.base_type ≠ OBJ_UNASSIGNED ∧ 0 < it.quantity),
    is_launched := fun w it =>
      match w with
      | some l =>
        if sample_launched_by it l = true then LRET_LAUNCHED
        else if sample_thrown it = true then LRET_THROWN else LRET_FUMBLED
      | none => if sample_thrown it = true then LRET_THROWN else LRET_FUMBLED,
    launched_by := sample_launched_by,
    is_throwable := fun it => sample_thrown it,
    item_ident_know_type := fun it => decide (it.flags % 2 = 1),
    items_similar := sample_similar,
    items_stack := fun a b _ => sample_similar a b,
    is_range_weapon := fun it =>
      decide (it.base_type = OBJ_WEAPONS ∧ WPN_BLOWGUN ≤ it.sub_type
        ∧ it.sub_type ≤ WPN_HAND_CROSSBOW),
    index_to_letter := fun i =>
      if i < 26 then Char.ofNat (97 + i.toNat) else Char.ofNat (65 + (i.toNat - 26)) }

/-- A plain unidentified item of the given class and subtype, lying in
inventory slot `slot`. -/
def sample_item (base_type : Int) (sub_type : Nat) (quantity : Int) (slot : Int)
    (inscription : String) : item_def :=
  { base_type := base_type, sub_type := sub_type, plus := 0, plus2 := 0, special := 0,
    colour := 0, flags := 0, quantity := quantity, link := slot, slot := slot,
    inscription := inscription }

/-- An unarmed player carrying five stones in slot 0 and three darts in slot 1. -/
def stones_and_darts : player :=
  { inv := fun i =>
      if i = 0 then sample_item OBJ_MISSILES MI_STONE 5 0 ""
      else if i = 1 then sample_item OBJ_MISSILES MI_DART 3 1 ""
      else item_def.new,
    equip_weapon := -1, attribute_held := 0, redraw_quiver := false, weapon := none }

/-- The unarmed player of `stones_and_darts` with the preference list
`dart, stone`. -/
def darts_first_game : Game :=
  { X := sample_externs,
    Options := { fire_items_start := 0, fire_order := [FIRE_DART, FIRE_STONE] },
    you := stones_and_darts }

/-- The unarmed player of `stones_and_darts` with a preference list of 32769
entries: `stone` repeated 32768 times, then `dart`. -/
def long_order_game : Game :=
  { X := sample_externs,
    Options := { fire_items_start := 0,
                 fire_order := List.replicate 32768 FIRE_STONE ++ [FIRE_DART] },
    you := stones_and_darts }

/-- A player caught in a net who wields a dagger (slot 0) and carries four
darts inscribed "=f" in slot 1; the preference list is `dart`. -/
def held_dagger_game : Game :=
  { X := sample_externs,
    Options := { fire_items_start := 0, fire_order := [FIRE_DART] },
    you :=
      { inv := fun i =>
          if i = 0 then sample_item OBJ_WEAPONS WPN_DAGGER 1 0 ""
          else if i = 1 then sample_item OBJ_MISSILES MI_DART 4 1 "=f"
          else item_def.new,
        equip_weapon := 0, attribute_held := 1, redraw_quiver := false,
        weapon := some (sample_item OBJ_WEAPONS WPN_DAGGER 1 0 "") } }

/-- A player caught in a net who wields a blowgun (slot 0) and carries stones
in slot 1 and needles in slots 2 and 4; the preference list is `launcher`. -/
def held_blowgun_game : Game :=
  { X := sample_externs,
    Options := { fire_items_start := 0, fire_order := [FIRE_LAUNCHER] },
    you :=
      { inv := fun i =>
          if i = 0 then sample_item OBJ_WEAPONS WPN_BLOWGUN 1 0 ""
          else if i = 1 then sample_item OBJ_MISSILES MI_STONE 6 1 ""
          else if i = 2 then sample_item OBJ_MISSILES MI_NEEDLE 7 2 ""
          else if i = 4 then sample_item OBJ_MISSILES MI_NEEDLE 2 4 "poisoned"
          else item_def.new,
        equip_weapon := 0, attribute_held := 1, redraw_quiver := false,
        weapon := some (sample_item OBJ_WEAPONS WPN_BLOWGUN 1 0 "") } }

/-- An unarmed, unheld player carrying stones in slot 0 and darts inscribed
"=f" in slot 1; the preference list is `dart, stone`. -/
def inscribed_darts_game : Game :=
  { X := sample_externs,
    Options := { fire_items_start := 0, fire_order := [FIRE_DART, FIRE_STONE] },
    you :=
      { inv := fun i =>
          if i = 0 then sample_item OBJ_MISSILES MI_STONE 5 0 ""
          else if i = 1 then sample_item OBJ_MISSILES MI_DART 3 1 "=f"
          else item_def.new,
        equip_weapon := -1, attribute_held := 0, redraw_quiver := false,
        weapon := none } }

/-- A player wielding a bow (slot 0) who carries ten arrows in slot 3 and
nothing else, not held, with the preference list `fire_order` and the default
start offset 0. -/
def bow_and_arrows (fire_order : List Nat) : Game :=
  { X := sample_externs,
    Options := { fire_items_start := 0, fire_order := fire_order },
    you :=
      { inv := fun i =>
          if i = 0 then sample_item OBJ_WEAPONS WPN_BOW 1 0 ""
          else if i = 3 then sample_item OBJ_MISSILES MI_ARROW 10 3 ""
          else item_def.new,
        equip_weapon := 0, attribute_held := 0, redraw_quiver := false,
        weapon := some (sample_item OBJ_WEAPONS WPN_BOW 1 0 "") } }

/-- An unarmed, unheld player whose only item is a stack of darts inscribed
"=f" in slot 1; the preference list is `dart, stone`. -/
def only_inscribed_darts_game : Game :=
  { X := sample_externs,
    Options := { fire_items_start := 0, fire_order := [FIRE_DART, FIRE_STONE] },
    you :=
      { inv := fun i =>
          if i = 1 then sample_item OBJ_MISSILES MI_DART 3 1 "=f" else item_def.new,
        equip_weapon := -1, attribute_held := 0, redraw_quiver := false,
        weapon := none } }

/-- A cell of the sample stream format: one cell per marshalled value. -/
inductive cell where
  | short (v : Int)
  | long (v : Int)
  | item (it : item_def)
  deriving DecidableEq

/-- Sample marshalling primitives over `cell`s; decoding a cell of the wrong
kind, or an exhausted stream, yields a zero value. -/
def cell_marshal : Marshal cell :=
  { marshallShort := fun v => [cell.short v],
    marshallLong := fun v => [cell.long v],
    marshallItem := fun it => [cell.item it],
    unmarshallShort := fun inf =>
      match inf with
      | cell.short v :: rest => (v, rest)
      | _ => (0, inf),
    unmarshallLong := fun inf =>
      match inf with
      | cell.long v :: rest => (v, rest)
      | _ => (0, inf),
    unmarshallItem := fun inf =>
      match inf with
      | cell.item it :: rest => (it, rest)
      | _ => (item_def.new, inf) }

/-- A quiver remembering the arrows of slot 3 for bows, with the bow category
active and a bow as Last Seen Weapon. -/
def sample_quiver : player_quiver :=
  { m_last_weapon := sample_item OBJ_WEAPONS WPN_BOW 1 0 "",
    m_last_used_type := AMMO_BOW,
    m_last_used_of_type :=
      player_quiver.new.m_last_used_of_type.set AMMO_BOW
        (sample_item OBJ_MISSILES MI_ARROW 1 3 "") }

/-- The bow of the sample games, lying in slot 0. -/
def sample_bow : item_def := sample_item OBJ_WEAPONS WPN_BOW 1 0 ""

/-- The dagger of the sample games, lying in slot 1. -/
def sample_dagger : item_def := sample_item OBJ_WEAPONS WPN_DAGGER 1 1 ""

/-- The arrows of the sample games, a stack of ten lying in slot 3. -/
def sample_arrows : item_def := sample_item OBJ_MISSILES MI_ARROW 10 3 ""

/-- An unheld player wielding the bow of slot 0 who carries a dagger in slot 1
and, when `with_arrows` is set, ten arrows in slot 3; the preference list is
`launcher, dagger`. -/
def archer_game (with_arrows : Bool) : Game :=
  { X := sample_externs,
    Options := { fire_items_start := 0, fire_order := [FIRE_LAUNCHER, FIRE_DAGGER] },
    you :=
      { inv := fun i =>
          if i = 0 then sample_bow
          else if i = 1 then sample_dagger
          else if i = 3 ∧ with_arrows = true then sample_arrows
          else item_def.new,
        equip_weapon := 0, attribute_held := 0, redraw_quiver := false,
        weapon := some sample_bow } }

/-- The archer of `archer_game` after putting the bow away: nothing is
wielded. -/
def unarmed_archer_game : Game :=
  { X := sample_externs,
    Options := { fire_items_start := 0, fire_order := [FIRE_LAUNCHER, FIRE_DAGGER] },
    you :=
      { inv := fun i =>
          if i = 0 then sample_bow
          else if i = 1 then sample_dagger
          else if i = 3 then sample_arrows
          else item_def.new,
        equip_weapon := -1, attribute_held := 0, redraw_quiver := false,
        weapon := none } }

/-- A quiver whose bow category remembers arrows that lay in slot 0 when they
were quivered; the bow category is active and the bow is the Last Seen
Weapon. -/
def stale_arrows_quiver : player_quiver :=
  { m_last_weapon := sample_bow,
    m_last_used_type := AMMO_BOW,
    m_last_used_of_type :=
      player_quiver.new.m_last_used_of_type.set AMMO_BOW
        (sample_item OBJ_MISSILES MI_ARROW 1 0 "") }

/-- The quiver of an archer without arrows who, starting from a fresh quiver,
was notified of the wielded bow and then explicitly threw the dagger. -/
def dagger_thrower_quiver : player_quiver :=
  (on_item_fired (archer_game false)
    (on_weapon_changed (archer_game false) player_quiver.new) sample_dagger true).1

/-- An unarmed player carrying two stacks of darts: the stack in slot 1 has
the inventory letter field 1, the stack in slot 2 has the letter field 5. -/
def two_dart_stacks_game : Game :=
  { X := sample_externs,
    Options := { fire_items_start := 0, fire_order := [FIRE_DART] },
    you :=
      { inv := fun i =>
          if i = 1 then sample_item OBJ_MISSILES MI_DART 4 1 ""
          else if i = 2 then
            { sample_item OBJ_MISSILES MI_DART 6 2 "" with slot := 5 }
          else item_def.new,
        equip_weapon := -1, attribute_held := 0, redraw_quiver := false,
        weapon := none } }

/-- A quiver whose active throwing category remembers the darts with letter
field 5. -/
def letter_five_quiver : player_quiver :=
  { m_last_weapon := item_def.new,
    m_last_used_type := AMMO_THROW,
    m_last_used_of_type :=
      player_quiver.new.m_last_used_of_type.set AMMO_THROW
        { sample_item OBJ_MISSILES MI_DART 1 2 "" with slot := 5 } }

/-! ## Lemmas on the sort key -/

theorem pack_key_unsigned (k i : Nat) (hi : i < 65536) :
    ((k <<< 16) % 2 ^ 32) ||| (and_0xffff (i : Int)).toNat = 65536 * (k % 65536) + i := by
  have h1 : (and_0xffff (i : Int)).toNat = i := by
    unfold and_0xffff
    omega
  have h2 : (k <<< 16) % 2 ^ 32 = 2 ^ 16 * (k % 65536) := by
    rw [Nat.shiftLeft_eq]
    omega
  rw [h1, h2, ← Nat.mul_add_lt_is_or (by simpa using hi)]

theorem and_0xffff_pack_key (k i : Nat) (hi : i < 65536) :
    and_0xffff (pack_key k (i : Int)) = (i : Int) := by
  unfold pack_key
  rw [pack_key_unsigned k i hi]
  unfold int_of_unsigned and_0xffff
  split_ifs <;> push_cast <;> omega

theorem pack_key_small (k i : Nat) (hk : k < 2 ^ 15) (hi : i < 65536) :
    pack_key k (i : Int) = 65536 * (k : Int) + (i : Int) := by
  unfold pack_key
  rw [pack_key_unsigned k i hi]
  unfold int_of_unsigned
  have : k % 65536 = k := Nat.mod_eq_of_lt (by omega)
  rw [this]
  split_ifs <;> push_cast <;> omega

/-! ## Lemmas on the loops of `_get_fire_order` -/

theorem flags_some_bounds (g : Game) (item : item_def) (launcher : Option item_def) :
    ∀ (ts : List Nat) (j k : Nat), _get_fire_order_flags g item launcher ts j = some k →
      j ≤ k ∧ k < j + ts.length
        ∧ (∃ t, ts[k - j]? = some t ∧ _item_matches g item t launcher = true)
        ∧ ∀ m t, m < k - j → ts[m]? = some t → _item_matches g item t launcher = false
  | [], j, k, h => by simp [_get_fire_order_flags] at h
  | t :: rest, j, k, h => by
    unfold _get_fire_order_flags at h
    by_cases hm : _item_matches g item t launcher = true
    · rw [if_pos hm] at h
      cases h
      refine ⟨le_refl _, by simp, ⟨t, by simp, hm⟩, ?_⟩
      intro m t' hlt
      omega
    · rw [if_neg hm] at h
      obtain ⟨h1, h2, ⟨t', ht', hmt'⟩, h4⟩ := flags_some_bounds g item launcher rest (j + 1) k h
      have hk : k - j = (k - (j + 1)) + 1 := by omega
      refine ⟨by omega, by simp; omega, ⟨t', by rw [hk]; simpa using ht', hmt'⟩, ?_⟩
      intro m t'' hlt hget
      cases m with
      | zero =>
        simp at hget
        subst hget
        simpa using hm
      | succ m =>
        simp at hget
        exact h4 m t'' (by omega) hget

theorem flags_none_iff (g : Game) (item : item_def) (launcher : Option item_def) :
    ∀ (ts : List Nat) (j : Nat), _get_fire_order_flags g item launcher ts j = none ↔
      ∀ t ∈ ts, _item_matches g item t launcher = false
  | [], j => by simp [_get_fire_order_flags]
  | t :: rest, j => by
    unfold _get_fire_order_flags
    by_cases hm : _item_matches g item t launcher = true
    · simp [hm]
    · rw [if_neg hm, flags_none_iff g item launcher rest (j + 1)]
      simp at hm
      simp [hm]

theorem flags_first_match (g : Game) (item : item_def) (launcher : Option item_def) (k : Nat)
    (h : _get_fire_order_flags g item launcher g.Options.fire_order 0 = some k) :
    first_match_index g launcher item k ∧ k < g.Options.fire_order.length := by
  obtain ⟨_, h2, h3, h4⟩ := flags_some_bounds g item launcher _ 0 k h
  refine ⟨⟨by simpa using h3, ?_⟩, by simpa using h2⟩
  intro j t hj hget
  exact h4 j t (by simpa using hj) hget

theorem flags_isSome_iff (g : Game) (item : item_def) (launcher : Option item_def) :
    (∃ k, _get_fire_order_flags g item launcher g.Options.fire_order 0 = some k) ↔
      ∃ t ∈ g.Options.fire_order, _item_matches g item t launcher = true := by
  have h := flags_none_iff g item launcher g.Options.fire_order 0
  cases hf : _get_fire_order_flags g item launcher g.Options.fire_order 0 with
  | none =>
    have h1 := h.mp hf
    constructor
    · rintro ⟨k, hk⟩
      cases hk
    · rintro ⟨t, ht, hm⟩
      rw [h1 t ht] at hm
      cases hm
  | some k =>
    constructor
    · intro _
      by_contra hne
      have h2 : ∀ t ∈ g.Options.fire_order, _item_matches g item t launcher = false := by
        intro t ht
        by_contra hm
        exact hne ⟨t, ht, by simpa using hm⟩
      rw [h.mpr h2] at hf
      cases hf
    · intro _
      exact ⟨k, rfl⟩

theorem pack_loop_eq (g : Game) (ig : Bool) (l : Option item_def) :
    ∀ (n i : Nat) (order : List Int), _get_fire_order_pack g ig l n i order
      = order ++ (List.range' i n).filterMap (fire_key g ig l)
  | 0, i, order => by simp [_get_fire_order_pack]
  | n + 1, i, order => by
    rw [_get_fire_order_pack, List.range'_succ, List.filterMap_cons]
    simp only [fire_key]
    split_ifs
    · simpa using pack_loop_eq g ig l n (i + 1) order
    · simpa using pack_loop_eq g ig l n (i + 1) order
    · simpa using pack_loop_eq g ig l n (i + 1) order
    · simpa using pack_loop_eq g ig l n (i + 1) order
    · cases hf : _get_fire_order_flags g (g.you.inv i) l g.Options.fire_order 0 with
      | none => simpa using pack_loop_eq g ig l n (i + 1) order
      | some k =>
        have h := pack_loop_eq g ig l n (i + 1) (order ++ [pack_key k (i : Int)])
        simpa using h

theorem held_loop_eq (g : Game) (l : item_def) :
    ∀ (n i : Nat) (order : List Int), _get_fire_order_held g l n i order
      = order ++ List.map (fun j : Nat => (j : Int))
          (List.filter
            (fun j => g.X.is_valid_item (g.you.inv j) && g.X.launched_by (g.you.inv j) l)
            (List.range' i n))
  | 0, i, order => by simp [_get_fire_order_held]
  | n + 1, i, order => by
    rw [_get_fire_order_held, List.range'_succ, List.filter_cons]
    by_cases h : g.X.is_valid_item (g.you.inv i) = true
        ∧ g.X.launched_by (g.you.inv i) l = true
    · rw [if_pos h, held_loop_eq g l n (i + 1)]
      simp [h.1, h.2]
    · rw [if_neg h, held_loop_eq g l n (i + 1)]
      have : (g.X.is_valid_item (g.you.inv i) && g.X.launched_by (g.you.inv i) l) = false := by
        simpa using h
      simp [this]

theorem fire_key_eq_some (g : Game) (ig : Bool) (l : Option item_def) (i : Nat) (x : Int) :
    fire_key g ig l i = some x ↔
      fire_eligible g ig i ∧ ∃ k,
        _get_fire_order_flags g (g.you.inv i) l g.Options.fire_order 0 = some k
          ∧ x = pack_key k (i : Int) := by
  unfold fire_key fire_eligible
  split_ifs with h1 h2 h3 h4
  · simp [h1]
  · simp [h2]
  · simp [h3]
  · simp [h4.1, h4.2]
  · have h1' : g.X.is_valid_item (g.you.inv i) = true := by simpa using h1
    have h4' : ig = false → inscribed_no_fire (g.you.inv i) = false := by
      intro hig
      by_contra hc
      exact h4 ⟨hig, by simpa using hc⟩
    constructor
    · intro h
      rw [Option.map_eq_some'] at h
      obtain ⟨k, hk, hx⟩ := h
      exact ⟨⟨h1', h2, h3, h4'⟩, k, hk, hx.symm⟩
    · rintro ⟨_, k, hk, hx⟩
      rw [hk, hx]
      rfl

theorem fire_order_not_held (g : Game) (ig : Bool) (l : Option item_def)
    (hheld : g.you.attribute_held = 0) :
    _get_fire_order g [] ig l
      = (((List.range' (if ig = true then 0 else g.Options.fire_items_start)
            (ENDOFPACK - (if ig = true then 0 else g.Options.fire_items_start))).filterMap
              (fire_key g ig l)).insertionSort (· ≤ ·)).map and_0xffff := by
  unfold _get_fire_order
  simp only [hheld, ne_eq, not_true_eq_false, if_false]
  rw [pack_loop_eq]
  simp

theorem range_lt_pack {s i : Nat} (h : i ∈ List.range' s (ENDOFPACK - s)) :
    s ≤ i ∧ i < ENDOFPACK ∧ i < 65536 := by
  rw [List.mem_range'_1] at h
  have : ENDOFPACK = 52 := rfl
  omega

theorem masked_keys_nodup (g : Game) (ig : Bool) (l : Option item_def) (s : Nat) :
    (((List.range' s (ENDOFPACK - s)).filterMap (fire_key g ig l)).map and_0xffff).Nodup := by
  rw [List.map_filterMap]
  unfold List.Nodup
  rw [List.pairwise_filterMap]
  refine List.Pairwise.imp_of_mem ?_ (List.nodup_range' s (ENDOFPACK - s))
  intro a b ha hb hab x hx y hy
  simp only [Option.mem_def, Option.map_eq_some'] at hx hy
  obtain ⟨kx, hkx, rfl⟩ := hx
  obtain ⟨ky, hky, rfl⟩ := hy
  obtain ⟨_, k, _, rfl⟩ := (fire_key_eq_some g ig l a kx).mp hkx
  obtain ⟨_, k', _, rfl⟩ := (fire_key_eq_some g ig l b ky).mp hky
  rw [and_0xffff_pack_key k a (range_lt_pack ha).2.2,
    and_0xffff_pack_key k' b (range_lt_pack hb).2.2]
  intro h
  exact hab (by exact_mod_cast h)

theorem fire_order_perm (g : Game) (ig : Bool) (l : Option item_def)
    (hheld : g.you.attribute_held = 0) :
    List.Perm (_get_fire_order g [] ig l)
      (((List.range' (if ig = true then 0 else g.Options.fire_items_start)
          (ENDOFPACK - (if ig = true then 0 else g.Options.fire_items_start))).filterMap
            (fire_key g ig l)).map and_0xffff) := by
  rw [fire_order_not_held g ig l hheld]
  exact (List.perm_insertionSort _ _).map _

theorem fire_order_mem_iff (g : Game) (ig : Bool) (l : Option item_def)
    (hheld : g.you.attribute_held = 0) (x : Int) :
    x ∈ _get_fire_order g [] ig l ↔
      ∃ i : Nat, x = (i : Int)
        ∧ (if ig = true then 0 else g.Options.fire_items_start) ≤ i ∧ i < ENDOFPACK
        ∧ fire_eligible g ig i
        ∧ ∃ k, _get_fire_order_flags g (g.you.inv i) l g.Options.fire_order 0 = some k := by
  rw [(fire_order_perm g ig l hheld).mem_iff]
  simp only [List.mem_map, List.mem_filterMap]
  constructor
  · rintro ⟨key, ⟨i, hi, hkey⟩, rfl⟩
    obtain ⟨he, k, hk, rfl⟩ := (fire_key_eq_some g ig l i key).mp hkey
    have hr := range_lt_pack hi
    exact ⟨i, and_0xffff_pack_key k i hr.2.2, hr.1, hr.2.1, he, k, hk⟩
  · rintro ⟨i, rfl, hs, hlt, he, k, hk⟩
    have hi : i ∈ List.range' (if ig = true then 0 else g.Options.fire_items_start)
        (ENDOFPACK - (if ig = true then 0 else g.Options.fire_items_start)) := by
      rw [List.mem_range'_1]
      omega
    exact ⟨pack_key k i, ⟨i, hi, (fire_key_eq_some g ig l i _).mpr ⟨he, k, hk, rfl⟩⟩,
      and_0xffff_pack_key k i (range_lt_pack hi).2.2⟩

/-! ## Ordering of the fire order -/

theorem fire_keys_nodup (g : Game) (ig : Bool) (l : Option item_def) (s : Nat) :
    ((List.range' s (ENDOFPACK - s)).filterMap (fire_key g ig l)).Nodup :=
  List.Nodup.of_map _ (masked_keys_nodup g ig l s)

theorem fire_keys_rank (g : Game) (ig : Bool) (l : Option item_def) (s : Nat)
    (hlen : g.Options.fire_order.length ≤ 2 ^ 15) (x : Int)
    (hx : x ∈ (List.range' s (ENDOFPACK - s)).filterMap (fire_key g ig l)) :
    ∃ i k : Nat, i < 65536 ∧ x = 65536 * (k : Int) + (i : Int)
      ∧ and_0xffff x = (i : Int) ∧ first_match_index g l (g.you.inv i) k := by
  rw [List.mem_filterMap] at hx
  obtain ⟨i, hi, hkey⟩ := hx
  obtain ⟨_, k, hk, rfl⟩ := (fire_key_eq_some g ig l i x).mp hkey
  have hr := range_lt_pack hi
  obtain ⟨hfm, hklt⟩ := flags_first_match g (g.you.inv i) l k hk
  exact ⟨i, k, hr.2.2, pack_key_small k i (by omega) hr.2.2,
    and_0xffff_pack_key k i hr.2.2, hfm⟩

/-- C1 (amended).  When the player is not held, the output vector starts
empty and the preference list `Options.fire_order` has at most `2^15` entries,
the slots returned by `_get_fire_order` are ordered by (index of the first
preference entry the item matches, inventory slot index) ascending: for any two
result positions `p < q` holding slots `a` and `b`, whose items first match the
preference entries of index `ca` and `cb`, either `ca < cb`, or `ca = cb` and
`a < b`. -/
theorem fire_order_ranked (g : Game) (ignore : Bool) (launcher : Option item_def)
    (hheld : g.you.attribute_held = 0)
    (hlen : g.Options.fire_order.length ≤ 2 ^ 15)
    (p q : Nat) (hpq : p < q) (hq : q < (_get_fire_order g [] ignore launcher).length) :
    ∃ a b ca cb : Nat,
      (_get_fire_order g [] ignore launcher)[p]? = some (a : Int)
      ∧ (_get_fire_order g [] ignore launcher)[q]? = some (b : Int)
      ∧ first_match_index g launcher (g.you.inv a) ca
      ∧ first_match_index g launcher (g.you.inv b) cb
      ∧ (ca < cb ∨ (ca = cb ∧ a < b)) := by
  rw [fire_order_not_held g ignore launcher hheld] at hq ⊢
  generalize hK : (List.range' (if ignore = true then 0 else g.Options.fire_items_start)
    (ENDOFPACK - (if ignore = true then 0 else g.Options.fire_items_start))).filterMap
      (fire_key g ignore launcher) = K at hq ⊢
  have hperm : List.Perm (K.insertionSort (· ≤ ·)) K := List.perm_insertionSort _ K
  have hsorted : (K.insertionSort (· ≤ ·)).Pairwise (· ≤ ·) := List.sorted_insertionSort _ K
  have hnodup : (K.insertionSort (· ≤ ·)).Pairwise (· ≠ ·) := by
    have h := fire_keys_nodup g ignore launcher
      (if ignore = true then 0 else g.Options.fire_items_start)
    rw [hK] at h
    exact hperm.nodup_iff.mpr h
  have hq' : q < (K.insertionSort (· ≤ ·)).length := by simpa using hq
  have hp' : p < (K.insertionSort (· ≤ ·)).length := by omega
  have hle := List.pairwise_iff_getElem.mp hsorted p q hp' hq' hpq
  have hne := List.pairwise_iff_getElem.mp hnodup p q hp' hq' hpq
  have hmp : (K.insertionSort (· ≤ ·))[p] ∈ K := hperm.mem_iff.mp (List.getElem_mem _)
  have hmq : (K.insertionSort (· ≤ ·))[q] ∈ K := hperm.mem_iff.mp (List.getElem_mem _)
  have hrank : ∀ x ∈ K, ∃ i k : Nat, i < 65536 ∧ x = 65536 * (k : Int) + (i : Int)
      ∧ and_0xffff x = (i : Int) ∧ first_match_index g launcher (g.you.inv i) k := by
    intro x hx
    rw [← hK] at hx
    exact fire_keys_rank g ignore launcher _ hlen x hx
  obtain ⟨a, ca, ha, hxa, hma, hfa⟩ := hrank _ hmp
  obtain ⟨b, cb, hb, hxb, hmb, hfb⟩ := hrank _ hmq
  refine ⟨a, b, ca, cb, ?_, ?_, hfa, hfb, ?_⟩
  · rw [List.getElem?_map, List.getElem?_eq_getElem hp', Option.map_some', hma]
  · rw [List.getElem?_map, List.getElem?_eq_getElem hq', Option.map_some', hmb]
  · rw [hxa, hxb] at hle hne
    omega

theorem darts_first_order : _get_fire_order darts_first_game [] false none = [1, 0] := by
  decide

theorem fire_order_ranked_witness :
    darts_first_game.you.attribute_held = 0
      ∧ darts_first_game.Options.fire_order.length ≤ 2 ^ 15
      ∧ 1 < (_get_fire_order darts_first_game [] false none).length
      ∧ ∃ a b ca cb : Nat,
        (_get_fire_order darts_first_game [] false none)[0]? = some (a : Int)
        ∧ (_get_fire_order darts_first_game [] false none)[1]? = some (b : Int)
        ∧ first_match_index darts_first_game none (darts_first_game.you.inv a) ca
        ∧ first_match_index darts_first_game none (darts_first_game.you.inv b) cb
        ∧ (ca < cb ∨ (ca = cb ∧ a < b)) :=
  ⟨by decide, by decide, by decide,
    fire_order_ranked darts_first_game false none (by decide) (by decide) 0 1 (by decide)
      (by decide)⟩

theorem flags_replicate_skip (g : Game) (item : item_def) (launcher : Option item_def)
    (t : Nat) (h : _item_matches g item t launcher = false) :
    ∀ (n : Nat) (rest : List Nat) (j : Nat),
      _get_fire_order_flags g item launcher (List.replicate n t ++ rest) j
        = _get_fire_order_flags g item launcher rest (j + n)
  | 0, rest, j => by simp
  | n + 1, rest, j => by
    rw [List.replicate_succ, List.cons_append, _get_fire_order_flags, h,
      flags_replicate_skip g item launcher t h n rest (j + 1)]
    simp
    congr 1
    omega

theorem long_order_inv_rest (i : Nat) (hi : 2 ≤ i) :
    long_order_game.you.inv i = item_def.new := by
  have h0 : i ≠ 0 := by omega
  have h1 : i ≠ 1 := by omega
  show (if i = 0 then sample_item OBJ_MISSILES MI_STONE 5 0 ""
    else if i = 1 then sample_item OBJ_MISSILES MI_DART 3 1 "" else item_def.new) = item_def.new
  rw [if_neg h0, if_neg h1]

theorem long_order_key_zero : fire_key long_order_game false none 0 = some 0 := by
  decide

theorem long_order_key_one :
    fire_key long_order_game false none 1 = some (-2147483647) := by
  have hm : _item_matches long_order_game (long_order_game.you.inv 1) FIRE_STONE none
      = false := by decide
  have hf : _get_fire_order_flags long_order_game (long_order_game.you.inv 1) none
      long_order_game.Options.fire_order 0 = some 32768 := by
    have h := flags_replicate_skip long_order_game (long_order_game.you.inv 1) none
      FIRE_STONE hm 32768 [FIRE_DART] 0
    have h2 : _get_fire_order_flags long_order_game (long_order_game.you.inv 1) none
        [FIRE_DART] (0 + 32768) = some 32768 := by decide
    rw [h2] at h
    exact h
  unfold fire_key
  rw [hf]
  decide

theorem long_order_key_rest (i : Nat) (hi : 2 ≤ i) :
    fire_key long_order_game false none i = none := by
  unfold fire_key
  rw [long_order_inv_rest i hi]
  have hv : long_order_game.X.is_valid_item item_def.new = false := by decide
  rw [if_pos hv]

theorem long_order_result : _get_fire_order long_order_game [] false none = [1, 0] := by
  rw [fire_order_not_held long_order_game false none rfl]
  have hr : List.range' (if false = true then 0 else long_order_game.Options.fire_items_start)
      (ENDOFPACK - (if false = true then 0 else long_order_game.Options.fire_items_start))
      = 0 :: 1 :: List.range' 2 50 := by decide
  have hnil : (List.range' 2 50).filterMap (fire_key long_order_game false none) = [] := by
    rw [List.filterMap_eq_nil_iff]
    intro i hi
    rw [List.mem_range'_1] at hi
    exact long_order_key_rest i hi.1
  rw [hr, List.filterMap_cons, long_order_key_zero, List.filterMap_cons, long_order_key_one, hnil]
  decide

/-- C1 (as stated) fails.  With a preference list of 32769 entries (`stone`
32768 times, then `dart`), stones in slot 0 and darts in slot 1, the unheld
player's fire order is `[1, 0]`: the darts, whose first matching entry has
index 32768, are ranked before the stones, whose first matching entry has
index 0, because the key `32768 << 16` is negative as a 32-bit `int`. -/
theorem fire_order_ranked_overflow :
    long_order_game.you.attribute_held = 0
      ∧ _get_fire_order long_order_game [] false none = [1, 0]
      ∧ ¬ ∀ p q : Nat, p < q →
          q < (_get_fire_order long_order_game [] false none).length →
          ∃ a b ca cb : Nat,
            (_get_fire_order long_order_game [] false none)[p]? = some (a : Int)
            ∧ (_get_fire_order long_order_game [] false none)[q]? = some (b : Int)
            ∧ first_match_index long_order_game none (long_order_game.you.inv a) ca
            ∧ first_match_index long_order_game none (long_order_game.you.inv b) cb
            ∧ (ca < cb ∨ (ca = cb ∧ a < b)) := by
  refine ⟨rfl, long_order_result, ?_⟩
  intro h
  have h01 := h 0 1 (by decide) (by rw [long_order_result]; decide)
  rw [long_order_result] at h01
  obtain ⟨a, b, ca, cb, ha, hb, _, hfb, hor⟩ := h01
  have ha1 : a = 1 := by
    have : (1 : Int) = (a : Int) := by simpa using ha
    omega
  have hb0 : b = 0 := by
    have : (0 : Int) = (b : Int) := by simpa using hb
    omega
  subst ha1 hb0
  have hcb : cb = 0 := by
    by_contra hne
    have hget : long_order_game.Options.fire_order[0]? = some FIRE_STONE := by
      show (List.replicate (32767 + 1) FIRE_STONE ++ [FIRE_DART])[0]? = some FIRE_STONE
      rw [List.replicate_succ, List.cons_append, List.getElem?_cons_zero]
    have hm := hfb.2 0 FIRE_STONE (by omega) hget
    have hm' : _item_matches long_order_game (long_order_game.you.inv 0) FIRE_STONE none
        = true := by decide
    rw [hm'] at hm
    cases hm
  omega

/-! ## Membership in the fire order -/

/-- C2.  When the player is not held and the output vector starts empty, the
result of `_get_fire_order(order, ignore, launcher)` is a duplicate-free list
whose elements are exactly the slots `i` with `inv_start <= i < ENDOFPACK`
(`inv_start = 0` if `ignore`, else `Options.fire_items_start`) such that
`you.inv[i]` is a valid item, `i` is not the wielded slot, the item is not
fumbled, its inscription does not contain "=f" (dropped when `ignore`), and
`_item_matches` holds for at least one entry of `Options.fire_order`. -/
theorem fire_order_members (g : Game) (ignore : Bool) (launcher : Option item_def)
    (hheld : g.you.attribute_held = 0) :
    (_get_fire_order g [] ignore launcher).Nodup
      ∧ ∀ x : Int, x ∈ _get_fire_order g [] ignore launcher ↔
        ∃ i : Nat, x = (i : Int)
          ∧ (if ignore = true then 0 else g.Options.fire_items_start) ≤ i
          ∧ i < ENDOFPACK
          ∧ g.X.is_valid_item (g.you.inv i) = true
          ∧ g.you.equip_weapon ≠ (i : Int)
          ∧ g.X.is_launched g.you.weapon (g.you.inv i) ≠ LRET_FUMBLED
          ∧ (ignore = false → inscribed_no_fire (g.you.inv i) = false)
          ∧ ∃ t ∈ g.Options.fire_order, _item_matches g (g.you.inv i) t launcher = true := by
  constructor
  · exact (fire_order_perm g ignore launcher hheld).nodup_iff.mpr
      (masked_keys_nodup g ignore launcher _)
  · intro x
    rw [fire_order_mem_iff g ignore launcher hheld x]
    constructor
    · rintro ⟨i, hx, hs, hlt, ⟨h1, h2, h3, h4⟩, hk⟩
      exact ⟨i, hx, hs, hlt, h1, h2, h3, h4, (flags_isSome_iff g _ launcher).mp hk⟩
    · rintro ⟨i, hx, hs, hlt, h1, h2, h3, h4, hm⟩
      exact ⟨i, hx, hs, hlt, ⟨h1, h2, h3, h4⟩, (flags_isSome_iff g _ launcher).mpr hm⟩

theorem fire_order_members_witness :
    darts_first_game.you.attribute_held = 0
      ∧ (_get_fire_order darts_first_game [] false none).Nodup
      ∧ ((1 : Int) ∈ _get_fire_order darts_first_game [] false none ↔
        ∃ i : Nat, (1 : Int) = (i : Int)
          ∧ (if false = true then 0 else darts_first_game.Options.fire_items_start) ≤ i
          ∧ i < ENDOFPACK
          ∧ darts_first_game.X.is_valid_item (darts_first_game.you.inv i) = true
          ∧ darts_first_game.you.equip_weapon ≠ (i : Int)
          ∧ darts_first_game.X.is_launched darts_first_game.you.weapon
              (darts_first_game.you.inv i) ≠ LRET_FUMBLED
          ∧ (false = false → inscribed_no_fire (darts_first_game.you.inv i) = false)
          ∧ ∃ t ∈ darts_first_game.Options.fire_order,
              _item_matches darts_first_game (darts_first_game.you.inv i) t none = true) :=
  ⟨by decide, (fire_order_members darts_first_game false none (by decide)).1,
    (fire_order_members darts_first_game false none (by decide)).2 1⟩

/-! ## The exclusion marker and the held player -/

theorem held_order_nil (g : Game) (ignore : Bool) (launcher : Option item_def)
    (hheld : g.you.attribute_held ≠ 0)
    (hl : ∀ l, launcher = some l → l.sub_type ≠ WPN_BLOWGUN) :
    _get_fire_order g [] ignore launcher = [] := by
  unfold _get_fire_order
  simp only [hheld, ne_eq, not_false_eq_true, if_true]
  cases launcher with
  | none => rfl
  | some l => simp [hl l rfl]

theorem held_order_blowgun (g : Game) (ignore : Bool) (l : item_def)
    (hheld : g.you.attribute_held ≠ 0) (hb : l.sub_type = WPN_BLOWGUN) :
    _get_fire_order g [] ignore (some l)
      = List.map (fun j : Nat => (j : Int))
          (List.filter
            (fun j => g.X.is_valid_item (g.you.inv j) && g.X.launched_by (g.you.inv j) l)
            (List.range' (if ignore = true then 0 else g.Options.fire_items_start)
              (ENDOFPACK - (if ignore = true then 0 else g.Options.fire_items_start)))) := by
  unfold _get_fire_order
  simp only [hheld, ne_eq, not_false_eq_true, if_true, hb]
  rw [held_loop_eq]
  simp

theorem held_order_mem_iff (g : Game) (ignore : Bool) (l : item_def)
    (hheld : g.you.attribute_held ≠ 0) (hb : l.sub_type = WPN_BLOWGUN) (x : Int) :
    x ∈ _get_fire_order g [] ignore (some l) ↔
      ∃ i : Nat, x = (i : Int)
        ∧ (if ignore = true then 0 else g.Options.fire_items_start) ≤ i
        ∧ i < ENDOFPACK
        ∧ g.X.is_valid_item (g.you.inv i) = true
        ∧ g.X.launched_by (g.you.inv i) l = true := by
  rw [held_order_blowgun g ignore l hheld hb]
  simp only [List.mem_map, List.mem_filter, List.mem_range'_1, Bool.and_eq_true]
  constructor
  · rintro ⟨i, ⟨⟨h1, h2⟩, h3, h4⟩, rfl⟩
    exact ⟨i, rfl, h1, by omega, h3, h4⟩
  · rintro ⟨i, rfl, h1, h2, h3, h4⟩
    exact ⟨i, ⟨⟨h1, by omega⟩, h3, h4⟩, rfl⟩

/-- C3 (as stated) fails for a held player.  The player is caught in a net and
wields a dagger; the darts in slot 1 are valid, not wielded, not fumbled, match
the preference entry `dart` and are inscribed "=f", yet slot 1 is absent from
the fire order computed with `ignore_inscription_etc = true`, which is
empty. -/
theorem exclusion_law_held_counterexample :
    held_dagger_game.X.is_valid_item (held_dagger_game.you.inv 1) = true
      ∧ held_dagger_game.you.equip_weapon ≠ 1
      ∧ held_dagger_game.X.is_launched held_dagger_game.you.weapon
          (held_dagger_game.you.inv 1) ≠ LRET_FUMBLED
      ∧ (∃ t ∈ held_dagger_game.Options.fire_order,
          _item_matches held_dagger_game (held_dagger_game.you.inv 1) t
            held_dagger_game.you.weapon = true)
      ∧ inscribed_no_fire (held_dagger_game.you.inv 1) = true
      ∧ _get_fire_order held_dagger_game [] true held_dagger_game.you.weapon = []
      ∧ ¬ ((1 : Int) ∉ _get_fire_order held_dagger_game [] false held_dagger_game.you.weapon
          ∧ (1 : Int) ∈ _get_fire_order held_dagger_game [] true held_dagger_game.you.weapon) := by
  decide

/-- C3 (amended).  Exclusion law, for a player who is not held: a slot
`i < ENDOFPACK` holding an otherwise eligible item (valid, not the wielded
slot, not fumbled, matching some preference entry) whose inscription contains
the fire-exclusion marker "=f" never appears in the result of
`_get_fire_order` with `ignore_inscription_etc = false`, and does appear in
the result with `ignore_inscription_etc = true`. -/
theorem exclusion_law (g : Game) (launcher : Option item_def) (i : Nat)
    (hheld : g.you.attribute_held = 0)
    (hi : i < ENDOFPACK)
    (hvalid : g.X.is_valid_item (g.you.inv i) = true)
    (hwield : g.you.equip_weapon ≠ (i : Int))
    (hfumble : g.X.is_launched g.you.weapon (g.you.inv i) ≠ LRET_FUMBLED)
    (hmatch : ∃ t ∈ g.Options.fire_order, _item_matches g (g.you.inv i) t launcher = true)
    (hmark : inscribed_no_fire (g.you.inv i) = true) :
    (i : Int) ∉ _get_fire_order g [] false launcher
      ∧ (i : Int) ∈ _get_fire_order g [] true launcher := by
  constructor
  · rw [fire_order_mem_iff g false launcher hheld]
    rintro ⟨j, hj, _, _, ⟨_, _, _, h4⟩, _⟩
    have hij : i = j := by exact_mod_cast hj
    subst hij
    rw [h4 rfl] at hmark
    cases hmark
  · rw [fire_order_mem_iff g true launcher hheld]
    refine ⟨i, rfl, by simp, hi, ⟨hvalid, hwield, hfumble, ?_⟩,
      (flags_isSome_iff g _ launcher).mpr hmatch⟩
    intro h
    cases h

theorem exclusion_law_witness :
    inscribed_darts_game.you.attribute_held = 0
      ∧ 1 < ENDOFPACK
      ∧ inscribed_no_fire (inscribed_darts_game.you.inv 1) = true
      ∧ ((1 : Nat) : Int) ∉ _get_fire_order inscribed_darts_game [] false none
      ∧ ((1 : Nat) : Int) ∈ _get_fire_order inscribed_darts_game [] true none :=
  ⟨by decide, by decide, by decide,
    exclusion_law inscribed_darts_game none 1 (by decide) (by decide) (by decide) (by decide)
      (by decide) (by decide) (by decide)⟩

/-- C4.  When the player is held and the output vector starts empty: if the
launcher is absent or its `sub_type` is not `WPN_BLOWGUN`, `_get_fire_order`
returns the empty list; if the launcher is a blowgun, it returns, in ascending
order, exactly the slots `i` in `[inv_start, ENDOFPACK)` whose item is valid
and `launched_by` the launcher. -/
theorem fire_order_held (g : Game) (ignore : Bool) (launcher : Option item_def)
    (hheld : g.you.attribute_held ≠ 0) :
    ((∀ l, launcher = some l → l.sub_type ≠ WPN_BLOWGUN) →
        _get_fire_order g [] ignore launcher = [])
      ∧ (∀ l, launcher = some l → l.sub_type = WPN_BLOWGUN →
        (_get_fire_order g [] ignore launcher).Pairwise (· < ·)
          ∧ ∀ x : Int, x ∈ _get_fire_order g [] ignore launcher ↔
            ∃ i : Nat, x = (i : Int)
              ∧ (if ignore = true then 0 else g.Options.fire_items_start) ≤ i
              ∧ i < ENDOFPACK
              ∧ g.X.is_valid_item (g.you.inv i) = true
              ∧ g.X.launched_by (g.you.inv i) l = true) := by
  constructor
  · intro hl
    exact held_order_nil g ignore launcher hheld hl
  · intro l hl hb
    subst hl
    constructor
    · rw [held_order_blowgun g ignore l hheld hb, List.pairwise_map]
      refine List.Pairwise.sublist (List.filter_sublist _) ?_
      exact (List.pairwise_lt_range' _ _).imp (by intro a b h; exact_mod_cast h)
    · intro x
      exact held_order_mem_iff g ignore l hheld hb x

theorem fire_order_held_witness :
    held_blowgun_game.you.attribute_held ≠ 0
      ∧ _get_fire_order held_dagger_game [] false held_dagger_game.you.weapon = []
      ∧ _get_fire_order held_blowgun_game [] false held_blowgun_game.you.weapon = [2, 4]
      ∧ (_get_fire_order held_blowgun_game [] false held_blowgun_game.you.weapon).Pairwise
          (· < ·) :=
  ⟨by decide,
    (fire_order_held held_dagger_game false held_dagger_game.you.weapon (by decide)).1
      (by decide),
    by decide,
    ((fire_order_held held_blowgun_game false held_blowgun_game.you.weapon (by decide)).2
      (sample_item OBJ_WEAPONS WPN_BLOWGUN 1 0 "") rfl (by decide)).1⟩

/-! ## The fire item and the failure reason -/

theorem fire_order_nonneg (g : Game) (ig : Bool) (l : Option item_def) :
    ∀ x ∈ _get_fire_order g [] ig l, 0 ≤ x := by
  intro x hx
  by_cases hheld : g.you.attribute_held = 0
  · obtain ⟨i, rfl, _⟩ := (fire_order_mem_iff g ig l hheld x).mp hx
    exact Int.ofNat_nonneg i
  · cases l with
    | none =>
      rw [held_order_nil g ig none hheld (by intro l h; cases h)] at hx
      cases hx
    | some l =>
      by_cases hb : l.sub_type = WPN_BLOWGUN
      · obtain ⟨i, rfl, _⟩ := (held_order_mem_iff g ig l hheld hb x).mp hx
        exact Int.ofNat_nonneg i
      · rw [held_order_nil g ig (some l) hheld
          (by intro l' h; cases h; exact hb)] at hx
        cases hx

theorem get_fire_item_fst (g : Game) (q : player_quiver) (r : Option String) :
    (get_fire_item g q r).1
      = if (get_desired_item g q).2 = -1 then
          order_head (_get_fire_order g [] false g.you.weapon) (-1)
        else (get_desired_item g q).2 := by
  unfold get_fire_item
  by_cases h0 : (get_desired_item g q).2 = -1
  · simp only [h0, if_true]
    split_ifs
    · cases r with
      | none => rfl
      | some s =>
        cases _get_fire_order g [] true g.you.weapon with
        | nil => rfl
        | cons h rest =>
          simp only []
          split_ifs <;> rfl
    · rfl
  · simp only [h0, if_false]

theorem get_desired_item_snd (g : Game) (q : player_quiver) :
    (get_desired_item g q).2
      = _get_pack_slot g (q.m_last_used_of_type.get q.m_last_used_type) := by
  unfold get_desired_item
  simp only []
  split_ifs <;> rfl

theorem bow_arrows_match (fo : List Nat) (t : Nat) (ht : t &&& FIRE_LAUNCHER ≠ 0) :
    _item_matches (bow_and_arrows fo) ((bow_and_arrows fo).you.inv 3) t
      (bow_and_arrows fo).you.weapon = true := by
  have hinv : (bow_and_arrows fo).you.inv 3 = sample_item OBJ_MISSILES MI_ARROW 10 3 "" := rfl
  have hw : (bow_and_arrows fo).you.weapon = some (sample_item OBJ_WEAPONS WPN_BOW 1 0 "") := rfl
  rw [hinv, hw]
  unfold _item_matches
  have h1 : inscribed_fire (sample_item OBJ_MISSILES MI_ARROW 10 3 "") = false := by decide
  have h2 : (sample_item OBJ_MISSILES MI_ARROW 10 3 "").base_type = OBJ_MISSILES := rfl
  have h3 : (sample_item OBJ_MISSILES MI_ARROW 10 3 "").sub_type = 1 := rfl
  have h4 : (bow_and_arrows fo).X.launched_by (sample_item OBJ_MISSILES MI_ARROW 10 3 "")
      (sample_item OBJ_WEAPONS WPN_BOW 1 0 "") = true := by
    show sample_externs.launched_by (sample_item OBJ_MISSILES MI_ARROW 10 3 "")
      (sample_item OBJ_WEAPONS WPN_BOW 1 0 "") = true
    decide
  simp [h1, h2, h3, h4, ht, MI_DART, MI_STONE, MI_JAVELIN, MI_LARGE_ROCK, MI_THROWING_NET]

theorem bow_arrows_order (fo : List Nat) (ht : ∃ t ∈ fo, t &&& FIRE_LAUNCHER ≠ 0) :
    ∃ rest, _get_fire_order (bow_and_arrows fo) [] false (bow_and_arrows fo).you.weapon
      = 3 :: rest := by
  have hheld : (bow_and_arrows fo).you.attribute_held = 0 := rfl
  have hall : ∀ x ∈ _get_fire_order (bow_and_arrows fo) [] false
      (bow_and_arrows fo).you.weapon, x = 3 := by
    intro x hx
    obtain ⟨i, rfl, _, _, ⟨hv, hw, _, _⟩, _⟩ := (fire_order_mem_iff _ _ _ hheld x).mp hx
    have hw0 : i ≠ 0 := by
      intro h
      subst h
      exact hw rfl
    by_cases h3 : i = 3
    · subst h3
      rfl
    · have hinv : (bow_and_arrows fo).you.inv i = item_def.new := by
        show (if i = 0 then sample_item OBJ_WEAPONS WPN_BOW 1 0 ""
          else if i = 3 then sample_item OBJ_MISSILES MI_ARROW 10 3 "" else item_def.new)
            = item_def.new
        rw [if_neg hw0, if_neg h3]
      rw [hinv] at hv
      have : (bow_and_arrows fo).X.is_valid_item item_def.new = false := by
        show sample_externs.is_valid_item item_def.new = false
        decide
      rw [this] at hv
      cases hv
  have hmem : (3 : Int) ∈ _get_fire_order (bow_and_arrows fo) [] false
      (bow_and_arrows fo).you.weapon := by
    rw [fire_order_mem_iff _ _ _ hheld]
    obtain ⟨t, htm, htl⟩ := ht
    have hv : (bow_and_arrows fo).X.is_valid_item ((bow_and_arrows fo).you.inv 3) = true := by
      show sample_externs.is_valid_item (sample_item OBJ_MISSILES MI_ARROW 10 3 "") = true
      decide
    have hw : (bow_and_arrows fo).you.equip_weapon ≠ ((3 : Nat) : Int) := by
      show (0 : Int) ≠ ((3 : Nat) : Int)
      decide
    have hl : (bow_and_arrows fo).X.is_launched (bow_and_arrows fo).you.weapon
        ((bow_and_arrows fo).you.inv 3) ≠ LRET_FUMBLED := by
      show sample_externs.is_launched (some (sample_item OBJ_WEAPONS WPN_BOW 1 0 ""))
        (sample_item OBJ_MISSILES MI_ARROW 10 3 "") ≠ LRET_FUMBLED
      decide
    have hn : inscribed_no_fire ((bow_and_arrows fo).you.inv 3) = false := by
      show inscribed_no_fire (sample_item OBJ_MISSILES MI_ARROW 10 3 "") = false
      decide
    exact ⟨3, rfl, Nat.zero_le _, by decide, ⟨hv, hw, hl, fun _ => hn⟩,
      (flags_isSome_iff _ _ _).mpr ⟨t, htm, bow_arrows_match fo t htl⟩⟩
  cases hres : _get_fire_order (bow_and_arrows fo) [] false (bow_and_arrows fo).you.weapon with
  | nil =>
    rw [hres] at hmem
    cases hmem
  | cons x rest =>
    have hx := hall x (by rw [hres]; exact List.mem_cons_self _ _)
    exact ⟨rest, by rw [hx]⟩

/-- C5.  The method `get_fire_item` returns the pack slot that
`get_desired_item` resolves for the active category when that slot is not -1;
otherwise it returns the first element of `_get_fire_order(false,
you.weapon())` when that list is non-empty; otherwise it returns -1.  In
particular, with an all-empty memory table, a wielded bow, arrows in slot 3 as
the only other item and a preference list containing the launcher flag, it
returns 3. -/
theorem get_fire_item_slot (g : Game) (q : player_quiver) (reason : Option String) :
    ((get_desired_item g q).2 ≠ -1 →
        (get_fire_item g q reason).1 = (get_desired_item g q).2)
      ∧ ((get_desired_item g q).2 = -1 →
          ∀ x rest, _get_fire_order g [] false g.you.weapon = x :: rest →
            (get_fire_item g q reason).1 = x)
      ∧ ((get_desired_item g q).2 = -1 →
          _get_fire_order g [] false g.you.weapon = [] →
            (get_fire_item g q reason).1 = -1)
      ∧ (∀ fire_order : List Nat, (∃ t ∈ fire_order, t &&& FIRE_LAUNCHER ≠ 0) →
          (get_fire_item (bow_and_arrows fire_order) player_quiver.new reason).1 = 3) := by
  refine ⟨?_, ?_, ?_, ?_⟩
  · intro h
    rw [get_fire_item_fst, if_neg h]
  · intro h x rest hres
    rw [get_fire_item_fst, if_pos h, hres]
    rfl
  · intro h hres
    rw [get_fire_item_fst, if_pos h, hres]
    rfl
  · intro fo hfo
    have hd : (get_desired_item (bow_and_arrows fo) player_quiver.new).2 = -1 := by
      rw [get_desired_item_snd]
      unfold _get_pack_slot
      have hv : (bow_and_arrows fo).X.is_valid_item
          (player_quiver.new.m_last_used_of_type.get player_quiver.new.m_last_used_type)
            = false := by
        show sample_externs.is_valid_item item_def.new = false
        decide
      rw [if_pos hv]
    obtain ⟨rest, hres⟩ := bow_arrows_order fo hfo
    rw [get_fire_item_fst, if_pos hd, hres]
    rfl

theorem get_fire_item_slot_witness :
    (get_desired_item (bow_and_arrows [FIRE_LAUNCHER]) player_quiver.new).2 = -1
      ∧ _get_fire_order (bow_and_arrows [FIRE_LAUNCHER]) [] false
          (bow_and_arrows [FIRE_LAUNCHER]).you.weapon = [3]
      ∧ (get_fire_item (bow_and_arrows [FIRE_LAUNCHER]) player_quiver.new none).1 = 3
      ∧ (get_fire_item (bow_and_arrows [FIRE_RETURNING, FIRE_LAUNCHER ||| FIRE_DART])
          player_quiver.new none).1 = 3 :=
  ⟨by decide, by decide,
    (get_fire_item_slot (bow_and_arrows [FIRE_LAUNCHER]) player_quiver.new none).2.1
      (by decide) 3 [] (by decide),
    (get_fire_item_slot (bow_and_arrows [FIRE_LAUNCHER]) player_quiver.new none).2.2.2
      [FIRE_RETURNING, FIRE_LAUNCHER ||| FIRE_DART] ⟨FIRE_LAUNCHER ||| FIRE_DART, by decide⟩⟩

theorem reason_start_ne_missiles (c : Char) :
    reason_fire_items_start c ≠ "No suitable missiles." := by
  intro h
  have h3 : (reason_fire_items_start c).data.take 3 = "No suitable missiles.".data.take 3 := by
    rw [h]
  have e1 : (reason_fire_items_start c).data.take 3 = ['N', 'o', 't'] := rfl
  have e2 : "No suitable missiles.".data.take 3 = ['N', 'o', ' '] := rfl
  rw [e1, e2] at h3
  exact absurd h3 (by decide)

theorem reason_inscribed_ne_missiles (c : Char) :
    reason_inscribed c ≠ "No suitable missiles." := by
  intro h
  have h3 : (reason_inscribed c).data.take 3 = "No suitable missiles.".data.take 3 := by
    rw [h]
  have e1 : (reason_inscribed c).data.take 3 = ['N', 'o', 't'] := rfl
  have e2 : "No suitable missiles.".data.take 3 = ['N', 'o', ' '] := rfl
  rw [e1, e2] at h3
  exact absurd h3 (by decide)

theorem reason_inscribed_ne_start (c d : Char) :
    reason_inscribed c ≠ reason_fire_items_start d := by
  intro h
  have h3 : ((reason_inscribed c).data.drop 18).take 1
      = ((reason_fire_items_start d).data.drop 18).take 1 := by
    rw [h]
  have e1 : ((reason_inscribed c).data.drop 18).take 1 = ['i'] := rfl
  have e2 : ((reason_fire_items_start d).data.drop 18).take 1 = ['f'] := rfl
  rw [e1, e2] at h3
  exact absurd h3 (by decide)

theorem get_fire_item_reason (g : Game) (q : player_quiver) (s : String)
    (hret : (get_fire_item g q (some s)).1 = -1) :
    (get_fire_item g q (some s)).2
      = match _get_fire_order g [] true g.you.weapon with
        | [] => some "No suitable missiles."
        | skipped_item :: _ =>
          if skipped_item < (g.Options.fire_items_start : Int) then
            some (reason_fire_items_start
              (g.X.index_to_letter (g.Options.fire_items_start : Int)))
          else some (reason_inscribed (g.X.index_to_letter skipped_item)) := by
  have hfst := get_fire_item_fst g q (some s)
  rw [hret] at hfst
  unfold get_fire_item
  by_cases h0 : (get_desired_item g q).2 = -1
  · rw [if_pos h0] at hfst
    simp only [h0, if_true]
    rw [← hfst]
    simp only [if_true]
    cases _get_fire_order g [] true g.you.weapon with
    | nil => rfl
    | cons h rest =>
      simp only []
      split_ifs <;> rfl
  · rw [if_neg h0] at hfst
    exact absurd hfst.symm h0

theorem get_fire_item_none_order (g : Game) (q : player_quiver) (r : Option String)
    (hret : (get_fire_item g q r).1 = -1) :
    _get_fire_order g [] false g.you.weapon = [] := by
  rw [get_fire_item_fst] at hret
  by_cases h0 : (get_desired_item g q).2 = -1
  · rw [if_pos h0] at hret
    cases hres : _get_fire_order g [] false g.you.weapon with
    | nil => rfl
    | cons x rest =>
      rw [hres] at hret
      have hx : 0 ≤ x :=
        fire_order_nonneg g false g.you.weapon x (by rw [hres]; exact List.mem_cons_self _ _)
      have hx' : x = -1 := hret
      omega
  · rw [if_neg h0] at hret
    exact absurd hret h0

theorem full_order_mem_excluded (g : Game) (l : Option item_def) (x : Int)
    (hx : x ∈ _get_fire_order g [] true l)
    (hstart : ¬ x < (g.Options.fire_items_start : Int))
    (hnot : x ∉ _get_fire_order g [] false l) :
    ∃ i : Nat, x = (i : Int) ∧ i < ENDOFPACK ∧ inscribed_no_fire (g.you.inv i) = true := by
  by_cases hheld : g.you.attribute_held = 0
  · obtain ⟨i, rfl, _, hlt, ⟨h1, h2, h3, _⟩, hk⟩ := (fire_order_mem_iff g true l hheld x).mp hx
    refine ⟨i, rfl, hlt, ?_⟩
    by_contra hc
    apply hnot
    rw [fire_order_mem_iff g false l hheld]
    refine ⟨i, rfl, ?_, hlt, ⟨h1, h2, h3, fun _ => by simpa using hc⟩, hk⟩
    simp only [Bool.false_eq_true, if_false]
    omega
  · cases l with
    | none =>
      rw [held_order_nil g true none hheld (by intro l h; cases h)] at hx
      cases hx
    | some l =>
      by_cases hb : l.sub_type = WPN_BLOWGUN
      · obtain ⟨i, rfl, _, hlt, hv, hl⟩ := (held_order_mem_iff g true l hheld hb x).mp hx
        exfalso
        apply hnot
        rw [held_order_mem_iff g false l hheld hb]
        refine ⟨i, rfl, ?_, hlt, hv, hl⟩
        simp only [Bool.false_eq_true, if_false]
        omega
      · rw [held_order_nil g true (some l) hheld
          (by intro l' h; cases h; exact hb)] at hx
        cases hx

/-- C6.  When `get_fire_item` returns -1 and a reason is requested, the reason
distinguishes the three cases truthfully: it is "No suitable missiles." iff the
exclusion-ignoring fire order is empty; otherwise it is the `fire_items_start`
reason iff the head `h` of the exclusion-ignoring order satisfies
`h < Options.fire_items_start`; otherwise it is the '=f' reason naming `h`, and
in that last case the item in slot `h` really does carry an inscription
containing "=f". -/
theorem no_item_reason_truthful (g : Game) (q : player_quiver) (s : String)
    (hret : (get_fire_item g q (some s)).1 = -1) :
    ((get_fire_item g q (some s)).2 = some "No suitable missiles." ↔
        _get_fire_order g [] true g.you.weapon = [])
      ∧ ∀ h rest, _get_fire_order g [] true g.you.weapon = h :: rest →
        ((get_fire_item g q (some s)).2
            = some (reason_fire_items_start
                (g.X.index_to_letter (g.Options.fire_items_start : Int))) ↔
          h < (g.Options.fire_items_start : Int))
        ∧ (¬ h < (g.Options.fire_items_start : Int) →
          (get_fire_item g q (some s)).2 = some (reason_inscribed (g.X.index_to_letter h))
            ∧ ∃ i : Nat, h = (i : Int) ∧ i < ENDOFPACK
              ∧ inscribed_no_fire (g.you.inv i) = true) := by
  have hreason := get_fire_item_reason g q s hret
  have hempty := get_fire_item_none_order g q (some s) hret
  constructor
  · cases hfull : _get_fire_order g [] true g.you.weapon with
    | nil =>
      rw [hfull] at hreason
      simp [hreason]
    | cons h rest =>
      rw [hfull] at hreason
      simp only [] at hreason
      rw [hreason]
      split_ifs
      · simp [reason_start_ne_missiles]
      · simp [reason_inscribed_ne_missiles]
  · intro h rest hfull
    rw [hfull] at hreason
    simp only [] at hreason
    rw [hreason]
    constructor
    · split_ifs with hlt
      · simp [hlt]
      · simp [hlt, reason_inscribed_ne_start]
    · intro hge
      rw [if_neg hge]
      refine ⟨rfl, ?_⟩
      apply full_order_mem_excluded g g.you.weapon h _ hge
      · rw [hempty]
        exact List.not_mem_nil _
      · rw [hfull]
        exact List.mem_cons_self _ _

theorem no_item_reason_truthful_witness :
    (get_fire_item only_inscribed_darts_game player_quiver.new (some "")).1 = -1
      ∧ _get_fire_order only_inscribed_darts_game [] true
          only_inscribed_darts_game.you.weapon = [1]
      ∧ (get_fire_item only_inscribed_darts_game player_quiver.new (some "")).2
          = some (reason_inscribed 'b')
      ∧ ∃ i : Nat, (1 : Int) = (i : Int) ∧ i < ENDOFPACK
          ∧ inscribed_no_fire (only_inscribed_darts_game.you.inv i) = true :=
  ⟨by decide, by decide,
    ((no_item_reason_truthful only_inscribed_darts_game player_quiver.new "" (by decide)).2
      1 [] (by decide)).2 (by decide)⟩

/-! ## The memory table -/

/-- C10.  For every item and category `c`, after `set_quiver(item, c)` the
snapshot stored for `c` equals `item` in every field except that its quantity
is 1, the active category is `c`, and the redraw flag is set. -/
theorem set_quiver_stores (q : player_quiver) (you : player) (item : item_def) (c : ammo_t) :
    ((set_quiver q you item c).1.m_last_used_of_type.get c) = { item with quantity := 1 }
      ∧ ((set_quiver q you item c).1.m_last_used_of_type.get c).quantity = 1
      ∧ (set_quiver q you item c).1.m_last_used_type = c
      ∧ (set_quiver q you item c).2.redraw_quiver = true := by
  unfold set_quiver
  simp [Mathlib.Vector.get_set_same]

/-- C9.  For every category `c` and every item, `set_quiver(item, c)` and
`empty_quiver(c)` leave the stored snapshot of every other category `d != c`,
and the Last Seen Weapon, unchanged; the table still holds exactly one snapshot
per category. -/
theorem quiver_update_frame (q : player_quiver) (you : player) (item : item_def)
    (c d : ammo_t) (hd : d ≠ c) :
    (set_quiver q you item c).1.m_last_used_of_type.get d = q.m_last_used_of_type.get d
      ∧ (set_quiver q you item c).1.m_last_weapon = q.m_last_weapon
      ∧ (set_quiver q you item c).1.m_last_used_of_type.toList.length = NUM_AMMO
      ∧ (empty_quiver q you c).1.m_last_used_of_type.get d = q.m_last_used_of_type.get d
      ∧ (empty_quiver q you c).1.m_last_weapon = q.m_last_weapon
      ∧ (empty_quiver q you c).1.m_last_used_of_type.toList.length = NUM_AMMO := by
  unfold set_quiver empty_quiver
  refine ⟨?_, rfl, ?_, ?_, rfl, ?_⟩
  · exact Mathlib.Vector.get_set_of_ne (Ne.symm hd) _
  · exact Mathlib.Vector.toList_length _
  · exact Mathlib.Vector.get_set_of_ne (Ne.symm hd) _
  · exact Mathlib.Vector.toList_length _

theorem quiver_update_frame_witness :
    AMMO_BOW ≠ AMMO_THROW
      ∧ (set_quiver sample_quiver stones_and_darts
          (sample_item OBJ_MISSILES MI_DART 3 1 "") AMMO_THROW).1.m_last_used_of_type.get
            AMMO_BOW = sample_item OBJ_MISSILES MI_ARROW 1 3 ""
      ∧ (empty_quiver sample_quiver stones_and_darts AMMO_THROW).1.m_last_used_of_type.get
            AMMO_BOW = sample_item OBJ_MISSILES MI_ARROW 1 3 "" :=
  ⟨by decide,
    (quiver_update_frame sample_quiver stones_and_darts
      (sample_item OBJ_MISSILES MI_DART 3 1 "") AMMO_THROW AMMO_BOW (by decide)).1,
    (quiver_update_frame sample_quiver stones_and_darts
      (sample_item OBJ_MISSILES MI_DART 3 1 "") AMMO_THROW AMMO_BOW (by decide)).2.2.2.1⟩

/-! ## Save and load -/

theorem save_eq {β : Type} (M : Marshal β) (q : player_quiver) :
    save M q [] = M.marshallShort QUIVER_COOKIE ++ (M.marshallItem q.m_last_weapon
      ++ (M.marshallLong (q.m_last_used_type.val : Int) ++ (M.marshallLong (NUM_AMMO : Int)
        ++ q.m_last_used_of_type.toList.flatMap M.marshallItem))) := by
  have hfold : ∀ (l : List item_def) (init : List β),
      l.foldl (fun o item => o ++ M.marshallItem item) init
        = init ++ l.flatMap M.marshallItem := by
    intro l
    induction l with
    | nil => intro init; simp
    | cons a l ih => intro init; simp [ih, List.flatMap_cons]
  unfold save
  simp only [hfold, List.nil_append, List.append_assoc]

theorem load_items_all {β : Type} (M : Marshal β)
    (hitem : ∀ it rest, M.unmarshallItem (M.marshallItem it ++ rest) = (it, rest))
    (t t0 : Mathlib.Vector item_def NUM_AMMO) (rest : List β) :
    load_items M NUM_AMMO t0 (t.toList.flatMap M.marshallItem ++ rest) = (t, rest) := by
  obtain ⟨l, hl⟩ := t
  obtain ⟨l0, hl0⟩ := t0
  have h6 : NUM_AMMO = 6 := rfl
  rw [h6] at hl hl0
  match l, hl, l0, hl0 with
  | [a, b, c, d, e, f], _, [a0, b0, c0, d0, e0, f0], _ =>
    have hr : (List.finRange NUM_AMMO).take NUM_AMMO
        = [AMMO_THROW, AMMO_BLOWGUN, AMMO_SLING, AMMO_BOW, AMMO_CROSSBOW, AMMO_HAND_CROSSBOW] :=
      rfl
    unfold load_items
    rw [hr]
    simp only [Mathlib.Vector.toList, List.flatMap_cons, List.flatMap_nil, List.append_nil,
      List.append_assoc, List.foldl_cons, List.foldl_nil, hitem]
    rfl

/-- C7.  Round trip: for every quiver state `q`, assuming the item and integer
marshalling primitives are inverse to their unmarshalling counterparts, `load`
applied to the stream produced by `save(q)` succeeds and yields a quiver with
the same active category, the same snapshot for every category and the same
`m_last_weapon`, whatever the quiver `q0` held before the load. -/
theorem save_load_round_trip {β : Type} (M : Marshal β)
    (hshort : ∀ v rest, -(2 : Int) ^ 15 ≤ v → v < 2 ^ 15 →
      M.unmarshallShort (M.marshallShort v ++ rest) = (v, rest))
    (hlong : ∀ v rest, -(2 : Int) ^ 31 ≤ v → v < 2 ^ 31 →
      M.unmarshallLong (M.marshallLong v ++ rest) = (v, rest))
    (hitem : ∀ it rest, M.unmarshallItem (M.marshallItem it ++ rest) = (it, rest))
    (q q0 : player_quiver) (rest : List β) :
    ∃ q', load M q0 (save M q [] ++ rest) = some (q', rest)
      ∧ q'.m_last_used_type = q.m_last_used_type
      ∧ (∀ c, q'.m_last_used_of_type.get c = q.m_last_used_of_type.get c)
      ∧ q'.m_last_weapon = q.m_last_weapon := by
  refine ⟨q, ?_, rfl, fun _ => rfl, rfl⟩
  have hc1 : -(2 : Int) ^ 15 ≤ QUIVER_COOKIE := by decide
  have hc2 : QUIVER_COOKIE < 2 ^ 15 := by decide
  have ht := q.m_last_used_type.isLt
  have h6 : NUM_AMMO = 6 := rfl
  have ht1 : -(2 : Int) ^ 31 ≤ (q.m_last_used_type.val : Int) := by omega
  have ht2 : (q.m_last_used_type.val : Int) < 2 ^ 31 := by omega
  have hn1 : -(2 : Int) ^ 31 ≤ (NUM_AMMO : Int) := by decide
  have hn2 : (NUM_AMMO : Int) < 2 ^ 31 := by decide
  have hcat : (AMMO_THROW.val : Int) ≤ (q.m_last_used_type.val : Int)
      ∧ (q.m_last_used_type.val : Int) < (NUM_AMMO : Int) := by
    constructor
    · exact Int.ofNat_nonneg _
    · exact_mod_cast ht
  have hcount : unsigned_long_of (NUM_AMMO : Int) = NUM_AMMO := by decide
  rw [save_eq]
  unfold load
  simp only [List.append_assoc, hshort _ _ hc1 hc2, hitem, hlong _ _ ht1 ht2,
    hlong _ _ hn1 hn2, ne_eq, not_true_eq_false, if_false, hcat, and_self, dite_true,
    hcount, le_refl, if_true, load_items_all M hitem]
  rfl

theorem save_load_round_trip_witness :
    ∃ q', load cell_marshal player_quiver.new (save cell_marshal sample_quiver [] ++ [])
        = some (q', [])
      ∧ q'.m_last_used_type = sample_quiver.m_last_used_type
      ∧ (∀ c, q'.m_last_used_of_type.get c = sample_quiver.m_last_used_of_type.get c)
      ∧ q'.m_last_weapon = sample_quiver.m_last_weapon :=
  save_load_round_trip cell_marshal (fun _ _ _ _ => rfl) (fun _ _ _ _ => rfl)
    (fun _ _ => rfl) sample_quiver player_quiver.new []

/-- C8.  The method `load` fails (its assertion fires) if and only if the
record's leading 16-bit cookie differs from `QUIVER_COOKIE` (0xb015 as a
short), or the decoded active category is not in `[AMMO_THROW, NUM_AMMO)`, or
the stored table length, read as an unsigned value, exceeds the number of
categories `NUM_AMMO`; a negative stored length is therefore rejected too. -/
theorem load_fails_iff {β : Type} (M : Marshal β) (q : player_quiver) (inf : List β) :
    (load M q inf = none ↔
        record_cookie M inf ≠ QUIVER_COOKIE
          ∨ ¬ ((AMMO_THROW.val : Int) ≤ record_category M inf
              ∧ record_category M inf < (NUM_AMMO : Int))
          ∨ NUM_AMMO < unsigned_long_of (record_length M inf))
      ∧ (record_length M inf < 0 → -(2 : Int) ^ 31 ≤ record_length M inf →
          load M q inf = none)
      ∧ QUIVER_COOKIE = 0xb015 - 2 ^ 16 := by
  have hiff : load M q inf = none ↔
      record_cookie M inf ≠ QUIVER_COOKIE
        ∨ ¬ ((AMMO_THROW.val : Int) ≤ record_category M inf
            ∧ record_category M inf < (NUM_AMMO : Int))
        ∨ NUM_AMMO < unsigned_long_of (record_length M inf) := by
    unfold load record_cookie record_category record_length
    simp only []
    split_ifs with h1 h2 h3
    · simp [h1]
    · simp only [reduceCtorEq, false_iff, not_or, not_not, not_lt]
      exact ⟨by simpa using h1, h2, h3⟩
    · simp only [true_iff]
      right
      right
      omega
    · simp only [true_iff]
      right
      left
      exact h2
  refine ⟨hiff, ?_, by decide⟩
  intro hneg hlow
  rw [hiff]
  right
  right
  have h6 : NUM_AMMO = 6 := rfl
  unfold unsigned_long_of
  omega

theorem load_fails_iff_witness :
    record_length cell_marshal
        [cell.short QUIVER_COOKIE, cell.item item_def.new, cell.long 3, cell.long (-1)] < 0
      ∧ load cell_marshal player_quiver.new
        [cell.short QUIVER_COOKIE, cell.item item_def.new, cell.long 3, cell.long (-1)]
          = none :=
  ⟨by decide,
    (load_fails_iff cell_marshal player_quiver.new
      [cell.short QUIVER_COOKIE, cell.item item_def.new, cell.long 3, cell.long (-1)]).2.1
      (by decide) (by decide)⟩

/-! ## Firing and weapon changes -/

theorem weapon_launches_eq_true (g : Game) (item : item_def) :
    weapon_launches g item = true ↔
      ∃ w, g.you.weapon = some w ∧ g.X.launched_by item w = true := by
  unfold weapon_launches
  cases g.you.weapon with
  | none => simp
  | some w => simp

theorem weapon_launches_of_not (g : Game) (item : item_def)
    (h : ∀ w, g.you.weapon = some w → g.X.launched_by item w = false) :
    weapon_launches g item = false := by
  by_contra hc
  obtain ⟨w, hw, hl⟩ := (weapon_launches_eq_true g item).mp (by simpa using hc)
  rw [h w hw] at hl
  cases hl

theorem on_item_fired_passive (g : Game) (q : player_quiver) (item : item_def) :
    on_item_fired g q item false = (q, { g.you with redraw_quiver := true }) := by
  unfold on_item_fired
  rw [if_pos rfl]

theorem on_item_fired_launch (g : Game) (q : player_quiver) (item : item_def)
    (h : weapon_launches g item = true) :
    on_item_fired g q item true
      = ({ q with
            m_last_used_of_type :=
              q.m_last_used_of_type.set (_get_weapon_ammo_type g.you.weapon)
                { item with quantity := 1 },
            m_last_used_type := _get_weapon_ammo_type g.you.weapon },
         { g.you with redraw_quiver := true }) := by
  unfold on_item_fired
  rw [if_neg (by decide), if_pos h]

theorem on_item_fired_fumble (g : Game) (q : player_quiver) (item : item_def)
    (h : weapon_launches g item = false)
    (hf : g.X.is_launched g.you.weapon item = LRET_FUMBLED) :
    on_item_fired g q item true = (q, g.you) := by
  unfold on_item_fired
  rw [if_neg (by decide), if_neg (by rw [h]; decide), if_pos hf]

theorem on_item_fired_throw (g : Game) (q : player_quiver) (item : item_def)
    (h : weapon_launches g item = false)
    (hf : g.X.is_launched g.you.weapon item ≠ LRET_FUMBLED) :
    on_item_fired g q item true
      = ({ q with
            m_last_used_of_type :=
              q.m_last_used_of_type.set AMMO_THROW { item with quantity := 1 },
            m_last_used_type := AMMO_THROW },
         { g.you with redraw_quiver := true }) := by
  unfold on_item_fired
  rw [if_neg (by decide), if_neg (by rw [h]; decide), if_neg hf]

/-- C11.  For `on_item_fired(item, explicitly_chosen = true)`: if a weapon is
wielded and `item.launched_by(weapon)`, then afterwards the snapshot of
category `_get_weapon_ammo_type(weapon)` is `item` with quantity 1 and that
category is active; otherwise, if `is_launched(item)` is not `LRET_FUMBLED`,
the `AMMO_THROW` snapshot is `item` with quantity 1 and `AMMO_THROW` is
active.  In both cases no other category's snapshot changes. -/
theorem on_item_fired_explicit (g : Game) (q : player_quiver) (item : item_def) :
    (∀ w, g.you.weapon = some w → g.X.launched_by item w = true →
        (on_item_fired g q item true).1.m_last_used_of_type.get
            (_get_weapon_ammo_type (some w)) = { item with quantity := 1 }
          ∧ (on_item_fired g q item true).1.m_last_used_type = _get_weapon_ammo_type (some w)
          ∧ ∀ d, d ≠ _get_weapon_ammo_type (some w) →
              (on_item_fired g q item true).1.m_last_used_of_type.get d
                = q.m_last_used_of_type.get d)
      ∧ ((∀ w, g.you.weapon = some w → g.X.launched_by item w = false) →
          g.X.is_launched g.you.weapon item ≠ LRET_FUMBLED →
          (on_item_fired g q item true).1.m_last_used_of_type.get AMMO_THROW
              = { item with quantity := 1 }
            ∧ (on_item_fired g q item true).1.m_last_used_type = AMMO_THROW
            ∧ ∀ d, d ≠ AMMO_THROW →
                (on_item_fired g q item true).1.m_last_used_of_type.get d
                  = q.m_last_used_of_type.get d) := by
  constructor
  · intro w hw hl
    have h : weapon_launches g item = true := (weapon_launches_eq_true g item).mpr ⟨w, hw, hl⟩
    rw [on_item_fired_launch g q item h, hw]
    refine ⟨Mathlib.Vector.get_set_same _ _ _, rfl, ?_⟩
    intro d hd
    exact Mathlib.Vector.get_set_of_ne (Ne.symm hd) _
  · intro hn hf
    have h : weapon_launches g item = false := weapon_launches_of_not g item hn
    rw [on_item_fired_throw g q item h hf]
    refine ⟨Mathlib.Vector.get_set_same _ _ _, rfl, ?_⟩
    intro d hd
    exact Mathlib.Vector.get_set_of_ne (Ne.symm hd) _

theorem on_item_fired_explicit_witness :
    (on_item_fired (archer_game true) player_quiver.new sample_arrows true).1.m_last_used_type
        = AMMO_BOW
      ∧ (on_item_fired (archer_game true) player_quiver.new sample_arrows
          true).1.m_last_used_of_type.get AMMO_BOW = { sample_arrows with quantity := 1 }
      ∧ (on_item_fired (archer_game true) player_quiver.new sample_dagger true).1.m_last_used_type
        = AMMO_THROW :=
  ⟨((on_item_fired_explicit (archer_game true) player_quiver.new sample_arrows).1
      sample_bow rfl (by decide)).2.1,
    ((on_item_fired_explicit (archer_game true) player_quiver.new sample_arrows).1
      sample_bow rfl (by decide)).1,
    ((on_item_fired_explicit (archer_game true) player_quiver.new sample_dagger).2
      (by intro w hw; cases hw; decide) (by decide)).2.1⟩

/-- C12.  The method `on_item_fired` leaves the whole memory (every category's
snapshot, the active category and the Last Seen Weapon) unchanged whenever the
item was not explicitly chosen, and also whenever it was explicitly chosen but
is neither launched by the wielded weapon nor throwable (`is_launched` returns
`LRET_FUMBLED`). -/
theorem on_item_fired_memory_unchanged (g : Game) (q : player_quiver) (item : item_def) :
    (on_item_fired g q item false).1 = q
      ∧ ((∀ w, g.you.weapon = some w → g.X.launched_by item w = false) →
          g.X.is_launched g.you.weapon item = LRET_FUMBLED →
          (on_item_fired g q item true).1 = q) := by
  constructor
  · rw [on_item_fired_passive]
  · intro hn hf
    rw [on_item_fired_fumble g q item (weapon_launches_of_not g item hn) hf]

theorem on_item_fired_memory_unchanged_witness :
    (archer_game true).X.is_launched (archer_game true).you.weapon
        (sample_item OBJ_MISSILES MI_NEEDLE 4 2 "") = LRET_FUMBLED
      ∧ (on_item_fired (archer_game true) sample_quiver
          (sample_item OBJ_MISSILES MI_NEEDLE 4 2 "") true).1 = sample_quiver :=
  ⟨by decide,
    (on_item_fired_memory_unchanged (archer_game true) sample_quiver
      (sample_item OBJ_MISSILES MI_NEEDLE 4 2 "")).2
      (by intro w hw; cases hw; decide) (by decide)⟩

/-- C13 (as stated) fails.  An archer explicitly fires needles, which the bow
does not launch and which cannot be thrown: `on_item_fired` returns early and
the redraw flag, false before the call, is still false afterwards. -/
theorem on_item_fired_no_redraw_counterexample :
    (archer_game true).you.redraw_quiver = false
      ∧ (on_item_fired (archer_game true) player_quiver.new
          (sample_item OBJ_MISSILES MI_NEEDLE 4 2 "") true).2.redraw_quiver = false := by
  decide

/-- C13 (amended).  The method `on_item_fired` flags a redraw
(`you.redraw_quiver` is true after the call) for every item and equipment
state when the item was not explicitly chosen, when it is launched by the
wielded weapon, and when `is_launched` does not return `LRET_FUMBLED`; when the
item was explicitly chosen, is not launched by the wielded weapon and is
fumbled, the call returns without writing the flag, which keeps its value. -/
theorem on_item_fired_redraw (g : Game) (q : player_quiver) (item : item_def) :
    (on_item_fired g q item false).2.redraw_quiver = true
      ∧ (∀ w, g.you.weapon = some w → g.X.launched_by item w = true →
          (on_item_fired g q item true).2.redraw_quiver = true)
      ∧ (g.X.is_launched g.you.weapon item ≠ LRET_FUMBLED →
          (on_item_fired g q item true).2.redraw_quiver = true)
      ∧ ((∀ w, g.you.weapon = some w → g.X.launched_by item w = false) →
          g.X.is_launched g.you.weapon item = LRET_FUMBLED →
          (on_item_fired g q item true).2.redraw_quiver = g.you.redraw_quiver) := by
  refine ⟨?_, ?_, ?_, ?_⟩
  · rw [on_item_fired_passive]
  · intro w hw hl
    rw [on_item_fired_launch g q item ((weapon_launches_eq_true g item).mpr ⟨w, hw, hl⟩)]
  · intro hf
    cases h : weapon_launches g item with
    | true => rw [on_item_fired_launch g q item h]
    | false => rw [on_item_fired_throw g q item h hf]
  · intro hn hf
    rw [on_item_fired_fumble g q item (weapon_launches_of_not g item hn) hf]

theorem on_item_fired_redraw_witness :
    (on_item_fired (archer_game true) player_quiver.new sample_arrows true).2.redraw_quiver
        = true
      ∧ (on_item_fired (archer_game true) player_quiver.new sample_dagger true).2.redraw_quiver
        = true
      ∧ (on_item_fired (archer_game true) player_quiver.new
          (sample_item OBJ_MISSILES MI_NEEDLE 4 2 "") true).2.redraw_quiver
        = (archer_game true).you.redraw_quiver :=
  ⟨(on_item_fired_redraw (archer_game true) player_quiver.new sample_arrows).2.1
      sample_bow rfl (by decide),
    (on_item_fired_redraw (archer_game true) player_quiver.new sample_dagger).2.2.1
      (by decide),
    (on_item_fired_redraw (archer_game true) player_quiver.new
      (sample_item OBJ_MISSILES MI_NEEDLE 4 2 "")).2.2.2
      (by intro w hw; cases hw; decide) (by decide)⟩

theorem refill_keeps_weapon_and_type (g : Game) (q : player_quiver) (slot : ammo_t)
    (u : Bool) :
    (_maybe_fill_empty_slot_refill g q slot u).m_last_weapon = q.m_last_weapon
      ∧ (_maybe_fill_empty_slot_refill g q slot u).m_last_used_type = q.m_last_used_type := by
  unfold _maybe_fill_empty_slot_refill
  simp only []
  split_ifs
  · exact ⟨rfl, rfl⟩
  · cases _maybe_fill_empty_slot_scan g (_get_fire_order g [] false g.you.weapon) with
    | none => exact ⟨rfl, rfl⟩
    | some item => exact ⟨rfl, rfl⟩

theorem fill_keeps_weapon_and_type (g : Game) (q : player_quiver) :
    (_maybe_fill_empty_slot g q).m_last_weapon = q.m_last_weapon
      ∧ (_maybe_fill_empty_slot g q).m_last_used_type = q.m_last_used_type := by
  unfold _maybe_fill_empty_slot
  simp only []
  split_ifs
  · exact refill_keeps_weapon_and_type g q _ true
  · exact ⟨rfl, rfl⟩
  · exact refill_keeps_weapon_and_type g q _ false

/-- C14.  After `on_weapon_changed`: if no weapon is wielded and the Last Seen
Weapon was set (`base_type != OBJ_UNASSIGNED`), the Last Seen Weapon is reset
to none (its `base_type` becomes `OBJ_UNASSIGNED`) and the active category is
`AMMO_THROW`; if a weapon is wielded and it is not stack-similar to the Last
Seen Weapon, the Last Seen Weapon becomes a copy of that weapon and the active
category becomes `_get_weapon_ammo_type(weapon)`; in every remaining case (no
weapon and none seen before, or a weapon similar to the last seen one) both
the Last Seen Weapon and the active category are unchanged. -/
theorem on_weapon_changed_tracks (g : Game) (q : player_quiver) :
    (g.you.weapon = none → q.m_last_weapon.base_type ≠ OBJ_UNASSIGNED →
        (on_weapon_changed g q).m_last_weapon
            = { q.m_last_weapon with base_type := OBJ_UNASSIGNED }
          ∧ (on_weapon_changed g q).m_last_weapon.base_type = OBJ_UNASSIGNED
          ∧ (on_weapon_changed g q).m_last_used_type = AMMO_THROW)
      ∧ (∀ w, g.you.weapon = some w → _items_similar g w q.m_last_weapon true = false →
          (on_weapon_changed g q).m_last_weapon = w
            ∧ (on_weapon_changed g q).m_last_used_type = _get_weapon_ammo_type (some w))
      ∧ (g.you.weapon = none → q.m_last_weapon.base_type = OBJ_UNASSIGNED →
          (on_weapon_changed g q).m_last_weapon = q.m_last_weapon
            ∧ (on_weapon_changed g q).m_last_used_type = q.m_last_used_type)
      ∧ (∀ w, g.you.weapon = some w → _items_similar g w q.m_last_weapon true = true →
          (on_weapon_changed g q).m_last_weapon = q.m_last_weapon
            ∧ (on_weapon_changed g q).m_last_used_type = q.m_last_used_type) := by
  refine ⟨?_, ?_, ?_, ?_⟩
  · intro hw hb
    unfold on_weapon_changed
    simp only [hw, if_pos hb]
    rw [(fill_keeps_weapon_and_type g _).1, (fill_keeps_weapon_and_type g _).2]
    exact ⟨rfl, rfl, rfl⟩
  · intro w hw hs
    unfold on_weapon_changed
    simp only [hw, if_pos hs]
    rw [(fill_keeps_weapon_and_type g _).1, (fill_keeps_weapon_and_type g _).2]
    exact ⟨rfl, rfl⟩
  · intro hw hb
    unfold on_weapon_changed
    simp only [hw, if_neg (not_not.mpr hb)]
    exact fill_keeps_weapon_and_type g q
  · intro w hw hs
    unfold on_weapon_changed
    have hne : ¬ (_items_similar g w q.m_last_weapon true = false) := by
      rw [hs]
      decide
    simp only [hw, if_neg hne]
    exact fill_keeps_weapon_and_type g q

theorem on_weapon_changed_tracks_witness :
    ((on_weapon_changed (archer_game true) player_quiver.new).m_last_weapon = sample_bow
        ∧ (on_weapon_changed (archer_game true) player_quiver.new).m_last_used_type = AMMO_BOW)
      ∧ ((on_weapon_changed unarmed_archer_game sample_quiver).m_last_weapon.base_type
          = OBJ_UNASSIGNED
        ∧ (on_weapon_changed unarmed_archer_game sample_quiver).m_last_used_type = AMMO_THROW)
      ∧ ((on_weapon_changed (archer_game true) sample_quiver).m_last_weapon
          = sample_quiver.m_last_weapon
        ∧ (on_weapon_changed (archer_game true) sample_quiver).m_last_used_type
          = sample_quiver.m_last_used_type) :=
  ⟨(on_weapon_changed_tracks (archer_game true) player_quiver.new).2.1 sample_bow rfl
      (by decide),
    ((on_weapon_changed_tracks unarmed_archer_game sample_quiver).1 rfl (by decide)).2,
    (on_weapon_changed_tracks (archer_game true) sample_quiver).2.2.2 sample_bow rfl
      (by decide)⟩

/-! ## The auto-refill check -/

theorem scan_eq_some_of_first (g : Game) :
    ∀ (pre : List Int) (x : Int) (post : List Int),
      (∀ y ∈ pre, g.X.is_launched g.you.weapon (g.you.inv y.toNat) ≠ desired_ret g) →
      g.X.is_launched g.you.weapon (g.you.inv x.toNat) = desired_ret g →
      _maybe_fill_empty_slot_scan g (pre ++ x :: post) = some (g.you.inv x.toNat)
  | [], x, post, _, hx => by
    rw [List.nil_append, _maybe_fill_empty_slot_scan, if_pos hx]
  | y :: pre, x, post, hpre, hx => by
    rw [List.cons_append, _maybe_fill_empty_slot_scan,
      if_neg (hpre y (List.mem_cons_self _ _))]
    exact scan_eq_some_of_first g pre x post
      (fun z hz => hpre z (List.mem_cons_of_mem _ hz)) hx

theorem scan_of_exists (g : Game) :
    ∀ (order : List Int),
      (∃ x ∈ order, g.X.is_launched g.you.weapon (g.you.inv x.toNat) = desired_ret g) →
      ∃ x ∈ order, g.X.is_launched g.you.weapon (g.you.inv x.toNat) = desired_ret g
        ∧ _maybe_fill_empty_slot_scan g order = some (g.you.inv x.toNat)
  | [], h => by
    obtain ⟨x, hx, _⟩ := h
    cases hx
  | y :: rest, h => by
    by_cases hy : g.X.is_launched g.you.weapon (g.you.inv y.toNat) = desired_ret g
    · refine ⟨y, List.mem_cons_self _ _, hy, ?_⟩
      rw [_maybe_fill_empty_slot_scan, if_pos hy]
    · obtain ⟨x, hx, hxl⟩ := h
      have hxr : x ∈ rest := by
        rcases List.mem_cons.mp hx with rfl | hxr
        · exact absurd hxl hy
        · exact hxr
      obtain ⟨z, hz, hzl, hzs⟩ := scan_of_exists g rest ⟨x, hxr, hxl⟩
      refine ⟨z, List.mem_cons_of_mem _ hz, hzl, ?_⟩
      rw [_maybe_fill_empty_slot_scan, if_neg hy]
      exact hzs

theorem refill_get_other (g : Game) (q : player_quiver) (slot : ammo_t) (u : Bool)
    (d : ammo_t) (hd : d ≠ slot) :
    (_maybe_fill_empty_slot_refill g q slot u).m_last_used_of_type.get d
      = q.m_last_used_of_type.get d := by
  unfold _maybe_fill_empty_slot_refill
  simp only []
  split_ifs
  · exact Mathlib.Vector.get_set_of_ne (Ne.symm hd) _
  · cases _maybe_fill_empty_slot_scan g (_get_fire_order g [] false g.you.weapon) with
    | none => rfl
    | some item => exact Mathlib.Vector.get_set_of_ne (Ne.symm hd) _

theorem refill_get_of_scan (g : Game) (q : player_quiver) (slot : ammo_t) (u : Bool)
    (item : item_def)
    (hs : _maybe_fill_empty_slot_scan g (_get_fire_order g [] false g.you.weapon) = some item) :
    (_maybe_fill_empty_slot_refill g q slot u).m_last_used_of_type.get slot
      = { item with quantity := 1 } := by
  have hne : _get_fire_order g [] false g.you.weapon ≠ [] := by
    intro h
    rw [h] at hs
    cases hs
  unfold _maybe_fill_empty_slot_refill
  simp only []
  rw [if_neg (fun h => hne h.2), hs]
  exact Mathlib.Vector.get_set_same _ _ _

theorem fill_eq_refill (g : Game) (q : player_quiver)
    (h : g.X.is_valid_item
          (q.m_last_used_of_type.get (_get_weapon_ammo_type g.you.weapon)) = false
      ∨ (q.m_last_used_of_type.get (_get_weapon_ammo_type g.you.weapon)).link
          = g.you.equip_weapon) :
    _maybe_fill_empty_slot g q
      = _maybe_fill_empty_slot_refill g q (_get_weapon_ammo_type g.you.weapon)
          (g.X.is_valid_item
            (q.m_last_used_of_type.get (_get_weapon_ammo_type g.you.weapon))) := by
  unfold _maybe_fill_empty_slot
  simp only []
  by_cases hv : g.X.is_valid_item
      (q.m_last_used_of_type.get (_get_weapon_ammo_type g.you.weapon)) = true
  · rw [if_pos hv, hv]
    rcases h with h | h
    · rw [hv] at h
      cases h
    · rw [if_pos h]
  · rw [if_neg hv]
    have hv' : g.X.is_valid_item
        (q.m_last_used_of_type.get (_get_weapon_ammo_type g.you.weapon)) = false := by
      simpa using hv
    rw [hv']

theorem fill_eq_self (g : Game) (q : player_quiver)
    (hv : g.X.is_valid_item
        (q.m_last_used_of_type.get (_get_weapon_ammo_type g.you.weapon)) = true)
    (hl : (q.m_last_used_of_type.get (_get_weapon_ammo_type g.you.weapon)).link
        ≠ g.you.equip_weapon) :
    _maybe_fill_empty_slot g q = q := by
  unfold _maybe_fill_empty_slot
  simp only []
  rw [if_pos hv, if_neg hl]

theorem fill_get_other (g : Game) (q : player_quiver) (d : ammo_t)
    (hd : d ≠ _get_weapon_ammo_type g.you.weapon) :
    (_maybe_fill_empty_slot g q).m_last_used_of_type.get d = q.m_last_used_of_type.get d := by
  unfold _maybe_fill_empty_slot
  simp only []
  split_ifs
  · exact refill_get_other g q _ true d hd
  · rfl
  · exact refill_get_other g q _ false d hd

theorem refill_get_same (g : Game) (q : player_quiver) (slot : ammo_t) (u : Bool) :
    (_maybe_fill_empty_slot_refill g q slot u).m_last_used_of_type.get slot
      = if u = true ∧ _get_fire_order g [] false g.you.weapon = [] then
          { q.m_last_used_of_type.get slot with quantity := 0 }
        else
          match _maybe_fill_empty_slot_scan g (_get_fire_order g [] false g.you.weapon) with
          | some item => { item with quantity := 1 }
          | none => q.m_last_used_of_type.get slot := by
  unfold _maybe_fill_empty_slot_refill
  simp only []
  split_ifs
  · exact Mathlib.Vector.get_set_same _ _ _
  · cases _maybe_fill_empty_slot_scan g (_get_fire_order g [] false g.you.weapon) with
    | none => rfl
    | some item => exact Mathlib.Vector.get_set_same _ _ _

theorem fill_get_same (g : Game) (q : player_quiver) :
    (_maybe_fill_empty_slot g q).m_last_used_of_type.get (_get_weapon_ammo_type g.you.weapon)
      = if g.X.is_valid_item
            (q.m_last_used_of_type.get (_get_weapon_ammo_type g.you.weapon)) = true then
          if (q.m_last_used_of_type.get (_get_weapon_ammo_type g.you.weapon)).link
              = g.you.equip_weapon then
            (_maybe_fill_empty_slot_refill g q (_get_weapon_ammo_type g.you.weapon)
              true).m_last_used_of_type.get (_get_weapon_ammo_type g.you.weapon)
          else q.m_last_used_of_type.get (_get_weapon_ammo_type g.you.weapon)
        else
          (_maybe_fill_empty_slot_refill g q (_get_weapon_ammo_type g.you.weapon)
            false).m_last_used_of_type.get (_get_weapon_ammo_type g.you.weapon) := by
  unfold _maybe_fill_empty_slot
  simp only []
  split_ifs <;> rfl

/-- C17.  When the auto-refill runs its scan (checked snapshot invalid, or
valid but colliding with the wielded slot) and the fire order
`_get_fire_order(false, weapon)` contains at least one slot whose
`is_launched` classification equals the desired mode, the new snapshot is a
copy of the inventory item at the first such slot `x` in fire order, with
quantity 1; a snapshot that is valid and does not collide with the wielded
slot is left untouched. -/
theorem refill_takes_first (g : Game) (q : player_quiver) :
    (g.X.is_valid_item
          (q.m_last_used_of_type.get (_get_weapon_ammo_type g.you.weapon)) = false
        ∨ (q.m_last_used_of_type.get (_get_weapon_ammo_type g.you.weapon)).link
          = g.you.equip_weapon →
        ∀ pre x post, _get_fire_order g [] false g.you.weapon = pre ++ x :: post →
          (∀ y ∈ pre, g.X.is_launched g.you.weapon (g.you.inv y.toNat) ≠ desired_ret g) →
          g.X.is_launched g.you.weapon (g.you.inv x.toNat) = desired_ret g →
          (_maybe_fill_empty_slot g q).m_last_used_of_type.get
              (_get_weapon_ammo_type g.you.weapon)
            = { g.you.inv x.toNat with quantity := 1 })
      ∧ (g.X.is_valid_item
            (q.m_last_used_of_type.get (_get_weapon_ammo_type g.you.weapon)) = true →
          (q.m_last_used_of_type.get (_get_weapon_ammo_type g.you.weapon)).link
            ≠ g.you.equip_weapon →
          _maybe_fill_empty_slot g q = q) := by
  constructor
  · intro h pre x post horder hpre hx
    rw [fill_eq_refill g q h]
    apply refill_get_of_scan
    rw [horder]
    exact scan_eq_some_of_first g pre x post hpre hx
  · intro hv hl
    exact fill_eq_self g q hv hl

theorem refill_takes_first_witness :
    _get_fire_order (archer_game true) [] false (archer_game true).you.weapon = [3, 1]
      ∧ (_maybe_fill_empty_slot (archer_game true)
          player_quiver.new).m_last_used_of_type.get AMMO_BOW
        = { sample_arrows with quantity := 1 }
      ∧ _maybe_fill_empty_slot (archer_game true) sample_quiver = sample_quiver :=
  ⟨by decide,
    (refill_takes_first (archer_game true) player_quiver.new).1 (Or.inl (by decide))
      [] 3 [1] (by decide) (by intro y hy; cases hy) (by decide),
    (refill_takes_first (archer_game true) sample_quiver).2 (by decide) (by decide)⟩

/-- C15 (as stated) fails.  Starting from a fresh quiver, an archer without
arrows is notified of the wielded bow and then explicitly throws the dagger, so
that the active category is `AMMO_THROW`.  When arrows have arrived in slot 3,
`_maybe_fill_empty_slot` checks the category of the wielded bow, not the
active one, and overwrites the empty `AMMO_BOW` snapshot with the arrows. -/
theorem refill_not_active_counterexample :
    dagger_thrower_quiver.m_last_used_type = AMMO_THROW
      ∧ _get_weapon_ammo_type (archer_game true).you.weapon = AMMO_BOW
      ∧ dagger_thrower_quiver.m_last_used_of_type.get AMMO_BOW = item_def.new
      ∧ (_maybe_fill_empty_slot (archer_game true)
          dagger_thrower_quiver).m_last_used_of_type.get AMMO_BOW
        = { sample_arrows with quantity := 1 }
      ∧ ¬ ∀ d, d ≠ dagger_thrower_quiver.m_last_used_type →
          (_maybe_fill_empty_slot (archer_game true)
            dagger_thrower_quiver).m_last_used_of_type.get d
          = dagger_thrower_quiver.m_last_used_of_type.get d := by
  refine ⟨by decide, by decide, by decide, by decide, ?_⟩
  intro h
  exact absurd (h AMMO_BOW (by decide)) (by decide)

/-- C15 (amended).  The auto-refill check (`_maybe_fill_empty_slot`) operates
on the category of the wielded weapon, `c = _get_weapon_ammo_type(you.weapon())`:
the snapshot it inspects for validity and slot collision, and the only snapshot
it may overwrite or zero, is the one of `c` (the new snapshot of `c` is
determined by the old snapshot of `c`); snapshots of all other categories, the
active category and the Last Seen Weapon are unchanged by it.  Consequently,
when the Active Category is `c`, `on_inv_quantity_changed` (for an item that is
not fumbled) finds the Active Category's snapshot empty (`base_type`
`OBJ_UNASSIGNED`, not a valid item) and the fire order contains an item of the
desired launch mode, the Active Category's snapshot is filled afterwards with
a quantity-1 copy of such an item. -/
theorem refill_weapon_category (g : Game) (q : player_quiver) :
    (∀ d, d ≠ _get_weapon_ammo_type g.you.weapon →
        (_maybe_fill_empty_slot g q).m_last_used_of_type.get d = q.m_last_used_of_type.get d)
      ∧ (_maybe_fill_empty_slot g q).m_last_used_type = q.m_last_used_type
      ∧ (_maybe_fill_empty_slot g q).m_last_weapon = q.m_last_weapon
      ∧ (∀ q' : player_quiver,
          q'.m_last_used_of_type.get (_get_weapon_ammo_type g.you.weapon)
              = q.m_last_used_of_type.get (_get_weapon_ammo_type g.you.weapon) →
          (_maybe_fill_empty_slot g q').m_last_used_of_type.get
              (_get_weapon_ammo_type g.you.weapon)
            = (_maybe_fill_empty_slot g q).m_last_used_of_type.get
              (_get_weapon_ammo_type g.you.weapon))
      ∧ (∀ slot amt : Int,
          q.m_last_used_type = _get_weapon_ammo_type g.you.weapon →
          g.X.is_launched g.you.weapon (g.you.inv slot.toNat) ≠ LRET_FUMBLED →
          (q.m_last_used_of_type.get q.m_last_used_type).base_type = OBJ_UNASSIGNED →
          g.X.is_valid_item (q.m_last_used_of_type.get q.m_last_used_type) = false →
          (∃ x ∈ _get_fire_order g [] false g.you.weapon,
            g.X.is_launched g.you.weapon (g.you.inv x.toNat) = desired_ret g) →
          ∃ x ∈ _get_fire_order g [] false g.you.weapon,
            g.X.is_launched g.you.weapon (g.you.inv x.toNat) = desired_ret g
              ∧ (on_inv_quantity_changed g q slot amt).1.m_last_used_of_type.get
                  q.m_last_used_type = { g.you.inv x.toNat with quantity := 1 }) := by
  refine ⟨fun d hd => fill_get_other g q d hd, (fill_keeps_weapon_and_type g q).2,
    (fill_keeps_weapon_and_type g q).1, ?_, ?_⟩
  · intro q' hq
    rw [fill_get_same g q', fill_get_same g q, refill_get_same, refill_get_same,
      refill_get_same, refill_get_same, hq]
  · intro slot amt hact hnf hempty hinvalid hex
    obtain ⟨x, hx, hxl, hscan⟩ := scan_of_exists g _ hex
    refine ⟨x, hx, hxl, ?_⟩
    unfold on_inv_quantity_changed
    rw [if_neg hnf, if_pos hempty]
    show (_maybe_fill_empty_slot g q).m_last_used_of_type.get q.m_last_used_type = _
    rw [hact] at hinvalid ⊢
    rw [fill_eq_refill g q (Or.inl hinvalid)]
    exact refill_get_of_scan g q _ _ _ hscan

theorem refill_weapon_category_witness :
    AMMO_THROW ≠ _get_weapon_ammo_type (archer_game true).you.weapon
      ∧ (_maybe_fill_empty_slot (archer_game true)
          dagger_thrower_quiver).m_last_used_of_type.get AMMO_THROW
        = dagger_thrower_quiver.m_last_used_of_type.get AMMO_THROW
      ∧ ∃ x ∈ _get_fire_order (archer_game true) [] false (archer_game true).you.weapon,
          (archer_game true).X.is_launched (archer_game true).you.weapon
              ((archer_game true).you.inv x.toNat) = desired_ret (archer_game true)
            ∧ (on_inv_quantity_changed (archer_game true)
                (empty_quiver sample_quiver (archer_game true).you AMMO_BOW).1
                3 10).1.m_last_used_of_type.get AMMO_BOW
              = { (archer_game true).you.inv x.toNat with quantity := 1 } :=
  ⟨by decide,
    (refill_weapon_category (archer_game true) dagger_thrower_quiver).1 AMMO_THROW
      (by decide),
    (refill_weapon_category (archer_game true)
        (empty_quiver sample_quiver (archer_game true).you AMMO_BOW).1).2.2.2.2 3 10
      (by decide) (by decide) (by decide) (by decide) ⟨3, by decide, by decide⟩⟩

/-- C16 (code evaluated at the failing input).  An archer wields the bow of
slot 0 and carries only a dagger besides; the `AMMO_BOW` snapshot is a valid
stack of arrows whose link is 0, the wielded slot.  The fire order is `[1]`
(the dagger, thrown), so it is not empty, yet it holds no item of the desired
mode `LRET_LAUNCHED`: `_maybe_fill_empty_slot` leaves the quiver untouched, and
the checked snapshot remains the old valid one with quantity 1. -/
theorem refill_collision_keeps_snapshot :
    (archer_game false).X.is_valid_item
        (stale_arrows_quiver.m_last_used_of_type.get
          (_get_weapon_ammo_type (archer_game false).you.weapon)) = true
      ∧ (stale_arrows_quiver.m_last_used_of_type.get
          (_get_weapon_ammo_type (archer_game false).you.weapon)).link
        = (archer_game false).you.equip_weapon
      ∧ _get_fire_order (archer_game false) [] false (archer_game false).you.weapon = [1]
      ∧ desired_ret (archer_game false) = LRET_LAUNCHED
      ∧ (archer_game false).X.is_launched (archer_game false).you.weapon
          ((archer_game false).you.inv 1) = LRET_THROWN
      ∧ _maybe_fill_empty_slot (archer_game false) stale_arrows_quiver = stale_arrows_quiver
      ∧ ((_maybe_fill_empty_slot (archer_game false)
          stale_arrows_quiver).m_last_used_of_type.get
            (_get_weapon_ammo_type (archer_game false).you.weapon)).quantity = 1 :=
  ⟨by decide, by decide, by decide, by decide, by decide, rfl, by decide⟩

/-! ## The packed sort key and the composite key -/

theorem pack_key_le_iff (a b : Nat × Nat) (ha : a.1 < 2 ^ 15 ∧ a.2 < 2 ^ 16)
    (hb : b.1 < 2 ^ 15 ∧ b.2 < 2 ^ 16) :
    composite_le a b ↔ pack_key a.1 (a.2 : Int) ≤ pack_key b.1 (b.2 : Int) := by
  rw [pack_key_small a.1 a.2 ha.1 (by omega), pack_key_small b.1 b.2 hb.1 (by omega)]
  unfold composite_le
  omega

theorem packed_sort_eq_composite (pairs : List (Nat × Nat))
    (h : ∀ p ∈ pairs, p.1 < 2 ^ 15 ∧ p.2 < 2 ^ 16) :
    ((pairs.map fun p => pack_key p.1 (p.2 : Int)).insertionSort (· ≤ ·)).map and_0xffff
      = (pairs.insertionSort composite_le).map fun p => (p.2 : Int) := by
  rw [← List.map_insertionSort composite_le (· ≤ ·) (fun p => pack_key p.1 (p.2 : Int)) pairs
    (fun a ha b hb => pack_key_le_iff a b (h a ha) (h b hb))]
  rw [List.map_map]
  apply List.map_congr_left
  intro p hp
  have hp' : p ∈ pairs := (List.perm_insertionSort composite_le pairs).mem_iff.mp hp
  exact and_0xffff_pack_key p.1 p.2 (by have := (h p hp').2; omega)

theorem fire_key_eq_map_pair (g : Game) (ig : Bool) (l : Option item_def) (i : Nat) :
    fire_key g ig l i = (fire_pair g ig l i).map fun p => pack_key p.1 (p.2 : Int) := by
  unfold fire_key fire_pair
  split_ifs
  · rfl
  · rfl
  · rfl
  · rfl
  · rw [Option.map_map]
    rfl

theorem fire_pair_bounds (g : Game) (ig : Bool) (l : Option item_def) (s : Nat)
    (hlen : g.Options.fire_order.length ≤ 2 ^ 15) :
    ∀ p ∈ (List.range' s (ENDOFPACK - s)).filterMap (fire_pair g ig l),
      p.1 < 2 ^ 15 ∧ p.2 < 2 ^ 16 := by
  intro p hp
  rw [List.mem_filterMap] at hp
  obtain ⟨i, hi, hpi⟩ := hp
  have hr := range_lt_pack hi
  unfold fire_pair at hpi
  split_ifs at hpi
  rw [Option.map_eq_some'] at hpi
  obtain ⟨k, hk, rfl⟩ := hpi
  have hklt := (flags_first_match g _ l k hk).2
  exact ⟨by show k < 2 ^ 15; omega, by show i < 2 ^ 16; omega⟩

/-- C18.  The bit-packed sort key is equivalent to the composite key: for
every preference index `f < 2^15` and slot `s < 2^16`, the 32-bit signed value
`(f << 16) | (s & 0xffff)` is non-negative, masking it with `0xffff` gives back
`s`, and comparing two such packed values as integers agrees with comparing the
pairs `(f, s)` lexicographically; so sorting the packed keys and masking yields
the same slot sequence as sorting by the tuple (category index, slot index),
for any list of such pairs and for the resolver itself.  For `f >= 2^15` the
packed value, taken modulo `2^32` as a signed int, no longer preserves this
order: some smaller category `f'` is not ranked before `f`. -/
theorem packed_key_refines_composite :
    (∀ f s : Nat, f < 2 ^ 15 → s < 2 ^ 16 →
        0 ≤ pack_key f (s : Int) ∧ and_0xffff (pack_key f (s : Int)) = (s : Int))
      ∧ (∀ f s f' s' : Nat, f < 2 ^ 15 → s < 2 ^ 16 → f' < 2 ^ 15 → s' < 2 ^ 16 →
          (pack_key f (s : Int) < pack_key f' (s' : Int) ↔ f < f' ∨ (f = f' ∧ s < s'))
            ∧ (pack_key f (s : Int) = pack_key f' (s' : Int) ↔ f = f' ∧ s = s'))
      ∧ (∀ pairs : List (Nat × Nat), (∀ p ∈ pairs, p.1 < 2 ^ 15 ∧ p.2 < 2 ^ 16) →
          ((pairs.map fun p => pack_key p.1 (p.2 : Int)).insertionSort (· ≤ ·)).map and_0xffff
            = (pairs.insertionSort composite_le).map fun p => (p.2 : Int))
      ∧ (∀ (g : Game) (ignore : Bool) (launcher : Option item_def),
          g.you.attribute_held = 0 → g.Options.fire_order.length ≤ 2 ^ 15 →
          _get_fire_order g [] ignore launcher = fire_order_by_composite_key g ignore launcher)
      ∧ (∀ f : Nat, 2 ^ 15 ≤ f →
          ∃ f' : Nat, f' < f ∧ ∀ s : Nat, s < 2 ^ 16 →
            ¬ pack_key f' (s : Int) < pack_key f (s : Int)) := by
  refine ⟨?_, ?_, packed_sort_eq_composite, ?_, ?_⟩
  · intro f s hf hs
    rw [pack_key_small f s hf (by omega)]
    refine ⟨by omega, ?_⟩
    rw [← pack_key_small f s hf (by omega)]
    exact and_0xffff_pack_key f s (by omega)
  · intro f s f' s' hf hs hf' hs'
    rw [pack_key_small f s hf (by omega), pack_key_small f' s' hf' (by omega)]
    constructor <;> omega
  · intro g ig l hheld hlen
    rw [fire_order_not_held g ig l hheld]
    unfold fire_order_by_composite_key
    rw [← packed_sort_eq_composite _ (fire_pair_bounds g ig l _ hlen), List.map_filterMap]
    congr 3
    funext i
    exact fire_key_eq_map_pair g ig l i
  · intro f hf
    by_cases hm : f % 65536 < 2 ^ 15
    · refine ⟨f % 65536, by omega, ?_⟩
      intro s hs
      have h1 : pack_key (f % 65536) (s : Int) = pack_key f (s : Int) := by
        unfold pack_key
        rw [pack_key_unsigned _ s (by omega), pack_key_unsigned f s (by omega)]
        simp
      omega
    · refine ⟨0, by omega, ?_⟩
      intro s hs
      have h0 : pack_key 0 (s : Int) = (s : Int) := by
        rw [pack_key_small 0 s (by decide) (by omega)]
        omega
      have hneg : pack_key f (s : Int) < 0 := by
        unfold pack_key
        rw [pack_key_unsigned f s (by omega)]
        unfold int_of_unsigned
        split_ifs <;> omega
      omega

theorem packed_key_refines_composite_witness :
    (0 ≤ pack_key 3 ((7 : Nat) : Int) ∧ and_0xffff (pack_key 3 ((7 : Nat) : Int)) = ((7 : Nat) : Int))
      ∧ _get_fire_order darts_first_game [] false none
        = fire_order_by_composite_key darts_first_game false none
      ∧ pack_key 32768 ((1 : Nat) : Int) < pack_key 0 ((0 : Nat) : Int) :=
  ⟨packed_key_refines_composite.1 3 7 (by decide) (by decide),
    packed_key_refines_composite.2.2.2.1 darts_first_game false none (by decide) (by decide),
    by decide⟩

/-! ## The pack-slot lookup -/

theorem bnot_of_not {b : Bool} (h : ¬ b = true) : (!b) = true := by
  cases b
  · rfl
  · exact absurd rfl h

theorem not_of_bnot {b : Bool} (h : (!b) = true) : ¬ b = true := by
  cases b
  · intro hc
    cases hc
  · cases h

theorem exact_match_iff (g : Game) (item : item_def) (i : Nat) :
    (decide ((g.you.inv i).quantity ≠ 0) && _items_similar g item (g.you.inv i) false) = true
      ↔ exact_match g item i := by
  unfold _items_similar exact_match
  simp

theorem forced_match_iff (g : Game) (item : item_def) (i : Nat) :
    (decide ((g.you.inv i).quantity ≠ 0) && _items_similar g item (g.you.inv i) true) = true
      ↔ forced_match g item i := by
  unfold _items_similar forced_match
  simp

theorem pack_slot_invalid (g : Game) (item : item_def)
    (hv : g.X.is_valid_item item = false) : _get_pack_slot g item = -1 := by
  unfold _get_pack_slot
  rw [if_pos hv]

theorem pack_slot_exact (g : Game) (item : item_def) (i : Nat)
    (hv : g.X.is_valid_item item = true) (hi : i < ENDOFPACK)
    (he : exact_match g item i) (hmin : ∀ j, j < i → ¬ exact_match g item j) :
    _get_pack_slot g item = (i : Int) := by
  unfold _get_pack_slot
  rw [if_neg (by rw [hv]; decide)]
  have hfind : (List.range ENDOFPACK).find? (fun i =>
      decide ((g.you.inv i).quantity ≠ 0) && _items_similar g item (g.you.inv i) false)
        = some i := by
    rw [List.find?_range_eq_some]
    refine ⟨(exact_match_iff g item i).mpr he, List.mem_range.mpr hi, ?_⟩
    intro j hj
    have := hmin j hj
    rw [← exact_match_iff] at this
    exact bnot_of_not this
  rw [hfind]

theorem pack_slot_forced (g : Game) (item : item_def) (i : Nat)
    (hv : g.X.is_valid_item item = true) (hi : i < ENDOFPACK)
    (hno : ∀ j, j < ENDOFPACK → ¬ exact_match g item j)
    (hf : forced_match g item i) (hmin : ∀ j, j < i → ¬ forced_match g item j) :
    _get_pack_slot g item = (i : Int) := by
  unfold _get_pack_slot
  rw [if_neg (by rw [hv]; decide)]
  have hnone : (List.range ENDOFPACK).find? (fun i =>
      decide ((g.you.inv i).quantity ≠ 0) && _items_similar g item (g.you.inv i) false)
        = none := by
    rw [List.find?_range_eq_none]
    intro j hj
    have := hno j hj
    rw [← exact_match_iff] at this
    exact bnot_of_not this
  have hfind : (List.range ENDOFPACK).find? (fun i =>
      decide ((g.you.inv i).quantity ≠ 0) && _items_similar g item (g.you.inv i) true)
        = some i := by
    rw [List.find?_range_eq_some]
    refine ⟨(forced_match_iff g item i).mpr hf, List.mem_range.mpr hi, ?_⟩
    intro j hj
    have := hmin j hj
    rw [← forced_match_iff] at this
    exact bnot_of_not this
  rw [hnone, hfind]

theorem pack_slot_eq_neg_one_iff (g : Game) (item : item_def) :
    _get_pack_slot g item = -1 ↔
      g.X.is_valid_item item = false
        ∨ ∀ j, j < ENDOFPACK → ¬ exact_match g item j ∧ ¬ forced_match g item j := by
  by_cases hv : g.X.is_valid_item item = false
  · simp [pack_slot_invalid g item hv, hv]
  · have hv' : g.X.is_valid_item item = true := by simpa using hv
    unfold _get_pack_slot
    rw [if_neg hv]
    cases h1 : (List.range ENDOFPACK).find? (fun i =>
        decide ((g.you.inv i).quantity ≠ 0) && _items_similar g item (g.you.inv i) false) with
    | some i =>
      rw [List.find?_range_eq_some] at h1
      simp only [hv', Bool.true_eq_false, false_or]
      constructor
      · intro h
        omega
      · intro h
        exact absurd ((exact_match_iff g item i).mp h1.1) (h i (List.mem_range.mp h1.2.1)).1
    | none =>
      rw [List.find?_range_eq_none] at h1
      cases h2 : (List.range ENDOFPACK).find? (fun i =>
          decide ((g.you.inv i).quantity ≠ 0) && _items_similar g item (g.you.inv i) true) with
      | some i =>
        rw [List.find?_range_eq_some] at h2
        simp only [hv', Bool.true_eq_false, false_or]
        constructor
        · intro h
          omega
        · intro h
          exact absurd ((forced_match_iff g item i).mp h2.1) (h i (List.mem_range.mp h2.2.1)).2
      | none =>
        rw [List.find?_range_eq_none] at h2
        simp only [hv', Bool.true_eq_false, false_or, true_iff]
        intro j hj
        constructor
        · rw [← exact_match_iff]
          exact not_of_bnot (h1 j hj)
        · rw [← forced_match_iff]
          exact not_of_bnot (h2 j hj)

theorem get_desired_item_of_slot (g : Game) (q : player_quiver) (i : Nat)
    (h : _get_pack_slot g (q.m_last_used_of_type.get q.m_last_used_type) = (i : Int)) :
    get_desired_item g q = (g.you.inv i, (i : Int)) := by
  unfold get_desired_item
  simp only [h]
  rw [if_neg (by omega)]
  simp

/-- C19.  The method `get_desired_item` resolves the active category's
snapshot through `_get_pack_slot`: it yields slot -1 together with the stored
snapshot itself iff the snapshot is not a valid item or no inventory slot with
non-zero quantity is similar to it (neither exactly, i.e. `items_similar` with
equal slot field, nor by forced stacking); otherwise it yields the lowest-index
exactly matching slot if any exact match exists, else the lowest-index
forced-similar slot, together with the live inventory item in that slot.  An
exact match is preferred even when a forced-similar item sits in a lower
slot. -/
theorem get_desired_item_resolves (g : Game) (q : player_quiver) :
    ((get_desired_item g q).2 = -1 ↔
        g.X.is_valid_item (q.m_last_used_of_type.get q.m_last_used_type) = false
          ∨ ∀ j, j < ENDOFPACK →
              ¬ exact_match g (q.m_last_used_of_type.get q.m_last_used_type) j
                ∧ ¬ forced_match g (q.m_last_used_of_type.get q.m_last_used_type) j)
      ∧ ((get_desired_item g q).2 = -1 →
          (get_desired_item g q).1 = q.m_last_used_of_type.get q.m_last_used_type)
      ∧ (g.X.is_valid_item (q.m_last_used_of_type.get q.m_last_used_type) = true →
          ∀ i, i < ENDOFPACK →
            exact_match g (q.m_last_used_of_type.get q.m_last_used_type) i →
            (∀ j, j < i → ¬ exact_match g (q.m_last_used_of_type.get q.m_last_used_type) j) →
            get_desired_item g q = (g.you.inv i, (i : Int)))
      ∧ (g.X.is_valid_item (q.m_last_used_of_type.get q.m_last_used_type) = true →
          (∀ j, j < ENDOFPACK →
            ¬ exact_match g (q.m_last_used_of_type.get q.m_last_used_type) j) →
          ∀ i, i < ENDOFPACK →
            forced_match g (q.m_last_used_of_type.get q.m_last_used_type) i →
            (∀ j, j < i → ¬ forced_match g (q.m_last_used_of_type.get q.m_last_used_type) j) →
            get_desired_item g q = (g.you.inv i, (i : Int))) := by
  refine ⟨?_, ?_, ?_, ?_⟩
  · rw [get_desired_item_snd]
    exact pack_slot_eq_neg_one_iff g _
  · intro h
    rw [get_desired_item_snd] at h
    unfold get_desired_item
    simp only [h, if_true]
  · intro hv i hi he hmin
    exact get_desired_item_of_slot g q i (pack_slot_exact g _ i hv hi he hmin)
  · intro hv hno i hi hf hmin
    exact get_desired_item_of_slot g q i (pack_slot_forced g _ i hv hi hno hf hmin)

theorem get_desired_item_resolves_witness :
    forced_match two_dart_stacks_game
        (letter_five_quiver.m_last_used_of_type.get letter_five_quiver.m_last_used_type) 1
      ∧ exact_match two_dart_stacks_game
        (letter_five_quiver.m_last_used_of_type.get letter_five_quiver.m_last_used_type) 2
      ∧ get_desired_item two_dart_stacks_game letter_five_quiver
        = (two_dart_stacks_game.you.inv 2, ((2 : Nat) : Int)) :=
  ⟨by decide, by decide,
    (get_desired_item_resolves two_dart_stacks_game letter_five_quiver).2.2.1 (by decide) 2
      (by decide) (by decide) (by decide)⟩

/-! ## Exclusion-respecting and exclusion-ignoring orders -/

theorem filterMap_sublist_of_le {α β : Type} (f h : α → Option β)
    (hfh : ∀ a, f a = none ∨ f a = h a) :
    ∀ l : List α, List.Sublist (l.filterMap f) (l.filterMap h)
  | [] => List.Sublist.refl _
  | a :: l => by
    have ih := filterMap_sublist_of_le f h hfh l
    rw [List.filterMap_cons, List.filterMap_cons]
    rcases hfh a with hn | he
    · rw [hn]
      cases hh : h a with
      | none => exact ih
      | some b => exact List.Sublist.cons b ih
    · rw [he]
      cases hh : h a with
      | none => exact ih
      | some b => exact List.Sublist.cons₂ b ih

theorem fire_key_ignore_mono (g : Game) (l : Option item_def) (i : Nat) :
    fire_key g false l i = none ∨ fire_key g false l i = fire_key g true l i := by
  unfold fire_key
  by_cases h1 : g.X.is_valid_item (g.you.inv i) = false
  · left
    rw [if_pos h1]
  · by_cases h2 : g.you.equip_weapon = (i : Int)
    · left
      rw [if_neg h1, if_pos h2]
    · by_cases h3 : g.X.is_launched g.you.weapon (g.you.inv i) = LRET_FUMBLED
      · left
        rw [if_neg h1, if_neg h2, if_pos h3]
      · by_cases h4 : inscribed_no_fire (g.you.inv i) = true
        · left
          rw [if_neg h1, if_neg h2, if_neg h3, if_pos ⟨rfl, h4⟩]
        · right
          rw [if_neg h1, if_neg h2, if_neg h3, if_neg (fun h => h4 h.2), if_neg h1, if_neg h2,
            if_neg h3, if_neg (fun h => Bool.noConfusion h.1)]

theorem range_start_sublist (s : Nat) :
    List.Sublist (List.range' s (ENDOFPACK - s)) (List.range' 0 (ENDOFPACK - 0)) := by
  by_cases hs : s ≤ ENDOFPACK
  · have h := List.range'_append 0 s (ENDOFPACK - s) 1
    have e : ENDOFPACK - s + s = ENDOFPACK - 0 := by omega
    have e1 : 0 + 1 * s = s := by omega
    rw [e, e1] at h
    rw [← h]
    exact List.sublist_append_right _ _
  · have e : ENDOFPACK - s = 0 := by omega
    rw [e]
    exact List.nil_sublist _

/-- C20.  For every inventory, equipment state, player state (held or not),
launcher and preference list, the exclusion-respecting fire order
`_get_fire_order(false, launcher)` is a subsequence of the exclusion-ignoring
fire order `_get_fire_order(true, launcher)`: every slot of the former occurs
in the latter and in the same relative order. -/
theorem respecting_order_sublist (g : Game) (launcher : Option item_def) :
    List.Sublist (_get_fire_order g [] false launcher) (_get_fire_order g [] true launcher) := by
  by_cases hheld : g.you.attribute_held = 0
  · rw [fire_order_not_held g false launcher hheld, fire_order_not_held g true launcher hheld]
    apply List.Sublist.map
    simp only [Bool.false_eq_true, if_false, if_true]
    have hsub : List.Sublist
        ((List.range' g.Options.fire_items_start
          (ENDOFPACK - g.Options.fire_items_start)).filterMap (fire_key g false launcher))
        ((List.range' 0 (ENDOFPACK - 0)).filterMap (fire_key g true launcher)) :=
      (filterMap_sublist_of_le _ _ (fire_key_ignore_mono g launcher) _).trans
        ((range_start_sublist g.Options.fire_items_start).filterMap _)
    apply List.sublist_of_subperm_of_sorted (r := (· ≤ ·))
    · exact ((List.perm_insertionSort _ _).subperm.trans hsub.subperm).trans
        (List.perm_insertionSort _ _).symm.subperm
    · exact List.sorted_insertionSort _ _
    · exact List.sorted_insertionSort _ _
  · cases launcher with
    | none =>
      rw [held_order_nil g false none hheld (by intro l h; cases h)]
      exact List.nil_sublist _
    | some l =>
      by_cases hb : l.sub_type = WPN_BLOWGUN
      · rw [held_order_blowgun g false l hheld hb, held_order_blowgun g true l hheld hb]
        apply List.Sublist.map
        apply List.Sublist.filter
        simp only [Bool.false_eq_true, if_false, if_true]
        exact range_start_sublist g.Options.fire_items_start
      · rw [held_order_nil g false (some l) hheld (by intro l' h; cases h; exact hb)]
        exact List.nil_sublist _

/-! ## The item matcher and bitmask union -/

theorem lor_eq_zero (x y : Nat) : x ||| y = 0 ↔ x = 0 ∧ y = 0 := by
  constructor
  · intro h
    have ht : ∀ i, (x.testBit i || y.testBit i) = false := by
      intro i
      rw [← Nat.testBit_or, h]
      exact Nat.zero_testBit i
    constructor
    · apply Nat.eq_of_testBit_eq
      intro i
      have := ht i
      rw [Nat.zero_testBit]
      cases hx : x.testBit i
      · rfl
      · rw [hx] at this
        cases this
    · apply Nat.eq_of_testBit_eq
      intro i
      have := ht i
      rw [Nat.zero_testBit]
      cases hy : y.testBit i
      · rfl
      · rw [hy, Bool.or_true] at this
        cases this
  · rintro ⟨rfl, rfl⟩
    rfl

theorem land_lor_ne_zero (a b m : Nat) :
    (a ||| b) &&& m ≠ 0 ↔ a &&& m ≠ 0 ∨ b &&& m ≠ 0 := by
  rw [Nat.and_comm (a ||| b) m, Nat.and_or_distrib_left, Nat.and_comm m a, Nat.and_comm m b,
    Ne, lor_eq_zero]
  tauto

theorem ite_true_eq_true (c : Prop) [Decidable c] (e : Bool) :
    (if c then true else e) = true ↔ c ∨ e = true := by
  by_cases h : c <;> simp [h]

theorem ite_eq_true_cases (c : Prop) [Decidable c] (a b : Bool) :
    (if c then a else b) = true ↔ (c ∧ a = true) ∨ (¬ c ∧ b = true) := by
  by_cases h : c <;> simp [h]

theorem ite_else_false (c : Prop) [Decidable c] (a : Bool) :
    (if c then a else false) = true ↔ c ∧ a = true := by
  by_cases h : c <;> simp [h]

theorem item_matches_iff (g : Game) (item : item_def) (t : Nat) (l : Option item_def) :
    _item_matches g item t l = true ↔
      (t &&& FIRE_INSCRIBED ≠ 0 ∧ inscribed_fire item = true)
        ∨ (item.base_type = OBJ_MISSILES
          ∧ ((t &&& FIRE_DART ≠ 0 ∧ item.sub_type = MI_DART)
            ∨ (t &&& FIRE_STONE ≠ 0 ∧ item.sub_type = MI_STONE)
            ∨ (t &&& FIRE_JAVELIN ≠ 0 ∧ item.sub_type = MI_JAVELIN)
            ∨ (t &&& FIRE_ROCK ≠ 0 ∧ item.sub_type = MI_LARGE_ROCK)
            ∨ (t &&& FIRE_NET ≠ 0 ∧ item.sub_type = MI_THROWING_NET)
            ∨ (t &&& FIRE_LAUNCHER ≠ 0
              ∧ (match l with
                | some w => g.X.launched_by item w
                | none => false) = true)))
        ∨ (item.base_type ≠ OBJ_MISSILES ∧ item.base_type = OBJ_WEAPONS
          ∧ g.X.is_throwable item = true
          ∧ ((t &&& FIRE_RETURNING ≠ 0 ∧ item.special = SPWPN_RETURNING
              ∧ g.X.item_ident_know_type item = true)
            ∨ (t &&& FIRE_DAGGER ≠ 0 ∧ item.sub_type = WPN_DAGGER)
            ∨ (t &&& FIRE_SPEAR ≠ 0 ∧ item.sub_type = WPN_SPEAR)
            ∨ (t &&& FIRE_HAND_AXE ≠ 0 ∧ item.sub_type = WPN_HAND_AXE)
            ∨ (t &&& FIRE_CLUB ≠ 0 ∧ item.sub_type = WPN_CLUB))) := by
  unfold _item_matches
  rw [ite_true_eq_true, ite_eq_true_cases]
  simp only [ite_true_eq_true, ite_else_false, Bool.false_eq_true, or_false, and_assoc,
    and_true]

theorem item_matches_lor (g : Game) (item : item_def) (a b : Nat) (l : Option item_def) :
    _item_matches g item (a ||| b) l
      = (_item_matches g item a l || _item_matches g item b l) := by
  rw [Bool.eq_iff_iff, Bool.or_eq_true, item_matches_iff, item_matches_iff, item_matches_iff]
  simp only [land_lor_ne_zero]
  generalize (match l with
    | some w => g.X.launched_by item w
    | none => false) = launched
  constructor
  · rintro (⟨hI | hI, h⟩ | ⟨hM, h⟩ | ⟨hM, hW, hT, h⟩)
    · exact Or.inl (Or.inl ⟨hI, h⟩)
    · exact Or.inr (Or.inl ⟨hI, h⟩)
    · rcases h with ⟨h | h, c⟩ | ⟨h | h, c⟩ | ⟨h | h, c⟩ | ⟨h | h, c⟩ | ⟨h | h, c⟩ | ⟨h | h, c⟩
      · exact Or.inl (Or.inr (Or.inl ⟨hM, Or.inl ⟨h, c⟩⟩))
      · exact Or.inr (Or.inr (Or.inl ⟨hM, Or.inl ⟨h, c⟩⟩))
      · exact Or.inl (Or.inr (Or.inl ⟨hM, Or.inr (Or.inl ⟨h, c⟩)⟩))
      · exact Or.inr (Or.inr (Or.inl ⟨hM, Or.inr (Or.inl ⟨h, c⟩)⟩))
      · exact Or.inl (Or.inr (Or.inl ⟨hM, Or.inr (Or.inr (Or.inl ⟨h, c⟩))⟩))
      · exact Or.inr (Or.inr (Or.inl ⟨hM, Or.inr (Or.inr (Or.inl ⟨h, c⟩))⟩))
      · exact Or.inl (Or.inr (Or.inl ⟨hM, Or.inr (Or.inr (Or.inr (Or.inl ⟨h, c⟩)))⟩))
      · exact Or.inr (Or.inr (Or.inl ⟨hM, Or.inr (Or.inr (Or.inr (Or.inl ⟨h, c⟩)))⟩))
      · exact Or.inl (Or.inr (Or.inl ⟨hM,
          Or.inr (Or.inr (Or.inr (Or.inr (Or.inl ⟨h, c⟩))))⟩))
      · exact Or.inr (Or.inr (Or.inl ⟨hM,
          Or.inr (Or.inr (Or.inr (Or.inr (Or.inl ⟨h, c⟩))))⟩))
      · exact Or.inl (Or.inr (Or.inl ⟨hM,
          Or.inr (Or.inr (Or.inr (Or.inr (Or.inr ⟨h, c⟩))))⟩))
      · exact Or.inr (Or.inr (Or.inl ⟨hM,
          Or.inr (Or.inr (Or.inr (Or.inr (Or.inr ⟨h, c⟩))))⟩))
    · rcases h with ⟨h | h, c⟩ | ⟨h | h, c⟩ | ⟨h | h, c⟩ | ⟨h | h, c⟩ | ⟨h | h, c⟩
      · exact Or.inl (Or.inr (Or.inr ⟨hM, hW, hT, Or.inl ⟨h, c⟩⟩))
      · exact Or.inr (Or.inr (Or.inr ⟨hM, hW, hT, Or.inl ⟨h, c⟩⟩))
      · exact Or.inl (Or.inr (Or.inr ⟨hM, hW, hT, Or.inr (Or.inl ⟨h, c⟩)⟩))
      · exact Or.inr (Or.inr (Or.inr ⟨hM, hW, hT, Or.inr (Or.inl ⟨h, c⟩)⟩))
      · exact Or.inl (Or.inr (Or.inr ⟨hM, hW, hT, Or.inr (Or.inr (Or.inl ⟨h, c⟩))⟩))
      · exact Or.inr (Or.inr (Or.inr ⟨hM, hW, hT, Or.inr (Or.inr (Or.inl ⟨h, c⟩))⟩))
      · exact Or.inl (Or.inr (Or.inr ⟨hM, hW, hT,
          Or.inr (Or.inr (Or.inr (Or.inl ⟨h, c⟩)))⟩))
      · exact Or.inr (Or.inr (Or.inr ⟨hM, hW, hT,
          Or.inr (Or.inr (Or.inr (Or.inl ⟨h, c⟩)))⟩))
      · exact Or.inl (Or.inr (Or.inr ⟨hM, hW, hT,
          Or.inr (Or.inr (Or.inr (Or.inr ⟨h, c⟩)))⟩))
      · exact Or.inr (Or.inr (Or.inr ⟨hM, hW, hT,
          Or.inr (Or.inr (Or.inr (Or.inr ⟨h, c⟩)))⟩))
  · have hmono : ∀ x : Nat,
        ((x &&& FIRE_INSCRIBED ≠ 0 ∧ inscribed_fire item = true)
          ∨ (item.base_type = OBJ_MISSILES
            ∧ ((x &&& FIRE_DART ≠ 0 ∧ item.sub_type = MI_DART)
              ∨ (x &&& FIRE_STONE ≠ 0 ∧ item.sub_type = MI_STONE)
              ∨ (x &&& FIRE_JAVELIN ≠ 0 ∧ item.sub_type = MI_JAVELIN)
              ∨ (x &&& FIRE_ROCK ≠ 0 ∧ item.sub_type = MI_LARGE_ROCK)
              ∨ (x &&& FIRE_NET ≠ 0 ∧ item.sub_type = MI_THROWING_NET)
              ∨ (x &&& FIRE_LAUNCHER ≠ 0 ∧ launched = true)))
          ∨ (item.base_type ≠ OBJ_MISSILES ∧ item.base_type = OBJ_WEAPONS
            ∧ g.X.is_throwable item = true
            ∧ ((x &&& FIRE_RETURNING ≠ 0 ∧ item.special = SPWPN_RETURNING
                ∧ g.X.item_ident_know_type item = true)
              ∨ (x &&& FIRE_DAGGER ≠ 0 ∧ item.sub_type = WPN_DAGGER)
              ∨ (x &&& FIRE_SPEAR ≠ 0 ∧ item.sub_type = WPN_SPEAR)
              ∨ (x &&& FIRE_HAND_AXE ≠ 0 ∧ item.sub_type = WPN_HAND_AXE)
              ∨ (x &&& FIRE_CLUB ≠ 0 ∧ item.sub_type = WPN_CLUB)))) →
        (∀ m : Nat, x &&& m ≠ 0 → a &&& m ≠ 0 ∨ b &&& m ≠ 0) →
        (((a &&& FIRE_INSCRIBED ≠ 0 ∨ b &&& FIRE_INSCRIBED ≠ 0) ∧ inscribed_fire item = true)
          ∨ (item.base_type = OBJ_MISSILES
            ∧ (((a &&& FIRE_DART ≠ 0 ∨ b &&& FIRE_DART ≠ 0) ∧ item.sub_type = MI_DART)
              ∨ ((a &&& FIRE_STONE ≠ 0 ∨ b &&& FIRE_STONE ≠ 0) ∧ item.sub_type = MI_STONE)
              ∨ ((a &&& FIRE_JAVELIN ≠ 0 ∨ b &&& FIRE_JAVELIN ≠ 0)
                ∧ item.sub_type = MI_JAVELIN)
              ∨ ((a &&& FIRE_ROCK ≠ 0 ∨ b &&& FIRE_ROCK ≠ 0) ∧ item.sub_type = MI_LARGE_ROCK)
              ∨ ((a &&& FIRE_NET ≠ 0 ∨ b &&& FIRE_NET ≠ 0) ∧ item.sub_type = MI_THROWING_NET)
              ∨ ((a &&& FIRE_LAUNCHER ≠ 0 ∨ b &&& FIRE_LAUNCHER ≠ 0) ∧ launched = true)))
          ∨ (item.base_type ≠ OBJ_MISSILES ∧ item.base_type = OBJ_WEAPONS
            ∧ g.X.is_throwable item = true
            ∧ (((a &&& FIRE_RETURNING ≠ 0 ∨ b &&& FIRE_RETURNING ≠ 0)
                ∧ item.special = SPWPN_RETURNING ∧ g.X.item_ident_know_type item = true)
              ∨ ((a &&& FIRE_DAGGER ≠ 0 ∨ b &&& FIRE_DAGGER ≠ 0) ∧ item.sub_type = WPN_DAGGER)
              ∨ ((a &&& FIRE_SPEAR ≠ 0 ∨ b &&& FIRE_SPEAR ≠ 0) ∧ item.sub_type = WPN_SPEAR)
              ∨ ((a &&& FIRE_HAND_AXE ≠ 0 ∨ b &&& FIRE_HAND_AXE ≠ 0)
                ∧ item.sub_type = WPN_HAND_AXE)
              ∨ ((a &&& FIRE_CLUB ≠ 0 ∨ b &&& FIRE_CLUB ≠ 0)
                ∧ item.sub_type = WPN_CLUB)))) := by
      intro x hx hm
      rcases hx with ⟨hI, h⟩ | ⟨hM, h⟩ | ⟨hM, hW, hT, h⟩
      · exact Or.inl ⟨hm _ hI, h⟩
      · refine Or.inr (Or.inl ⟨hM, ?_⟩)
        rcases h with ⟨h, c⟩ | ⟨h, c⟩ | ⟨h, c⟩ | ⟨h, c⟩ | ⟨h, c⟩ | ⟨h, c⟩
        · exact Or.inl ⟨hm _ h, c⟩
        · exact Or.inr (Or.inl ⟨hm _ h, c⟩)
        · exact Or.inr (Or.inr (Or.inl ⟨hm _ h, c⟩))
        · exact Or.inr (Or.inr (Or.inr (Or.inl ⟨hm _ h, c⟩)))
        · exact Or.inr (Or.inr (Or.inr (Or.inr (Or.inl ⟨hm _ h, c⟩))))
        · exact Or.inr (Or.inr (Or.inr (Or.inr (Or.inr ⟨hm _ h, c⟩))))
      · refine Or.inr (Or.inr ⟨hM, hW, hT, ?_⟩)
        rcases h with ⟨h, c⟩ | ⟨h, c⟩ | ⟨h, c⟩ | ⟨h, c⟩ | ⟨h, c⟩
        · exact Or.inl ⟨hm _ h, c⟩
        · exact Or.inr (Or.inl ⟨hm _ h, c⟩)
        · exact Or.inr (Or.inr (Or.inl ⟨hm _ h, c⟩))
        · exact Or.inr (Or.inr (Or.inr (Or.inl ⟨hm _ h, c⟩)))
        · exact Or.inr (Or.inr (Or.inr (Or.inr ⟨hm _ h, c⟩)))
    rintro (h | h)
    · exact hmono a h (fun m hm => Or.inl hm)
    · exact hmono b h (fun m hm => Or.inr hm)

theorem item_matches_zero (g : Game) (item : item_def) (l : Option item_def) :
    _item_matches g item 0 l = false := by
  rw [Bool.eq_false_iff]
  intro h
  rw [item_matches_iff] at h
  simp only [Nat.zero_and, ne_eq, not_true_eq_false, false_and, or_false, and_false] at h

theorem lor_two_pow_of_land (a k : Nat) (h : a &&& 2 ^ k ≠ 0) : a ||| 2 ^ k = a := by
  have hk : a.testBit k = true := by
    by_contra hc
    apply h
    apply Nat.eq_of_testBit_eq
    intro i
    rw [Nat.testBit_and, Nat.zero_testBit, Nat.testBit_two_pow]
    by_cases hik : k = i
    · subst hik
      simp [hc]
    · simp [hik]
  apply Nat.eq_of_testBit_eq
  intro i
  rw [Nat.testBit_or, Nat.testBit_two_pow]
  by_cases hik : k = i
  · subst hik
    simp [hk]
  · simp [hik]

theorem single_kind_flag_two_pow (F : Nat) (hF : F ∈ single_kind_flags) : ∃ k, F = 2 ^ k := by
  simp only [single_kind_flags, List.mem_cons, List.mem_singleton, List.not_mem_nil,
    or_false] at hF
  rcases hF with rfl | rfl | rfl | rfl | rfl | rfl | rfl | rfl | rfl | rfl | rfl | rfl
  · exact ⟨0, rfl⟩
  · exact ⟨1, rfl⟩
  · exact ⟨2, rfl⟩
  · exact ⟨3, rfl⟩
  · exact ⟨4, rfl⟩
  · exact ⟨5, rfl⟩
  · exact ⟨6, rfl⟩
  · exact ⟨7, rfl⟩
  · exact ⟨8, rfl⟩
  · exact ⟨9, rfl⟩
  · exact ⟨10, rfl⟩
  · exact ⟨11, rfl⟩

theorem item_matches_of_single (g : Game) (item : item_def) (a F : Nat)
    (l : Option item_def) (hF : F ∈ single_kind_flags) (ha : a &&& F ≠ 0)
    (hm : _item_matches g item F l = true) : _item_matches g item a l = true := by
  obtain ⟨k, rfl⟩ := single_kind_flag_two_pow F hF
  have h := item_matches_lor g item a (2 ^ k) l
  rw [lor_two_pow_of_land a k ha, hm, Bool.or_true] at h
  exact h

theorem item_matches_single_exists (g : Game) (item : item_def) (a : Nat)
    (l : Option item_def) (hm : _item_matches g item a l = true) :
    ∃ F ∈ single_kind_flags, a &&& F ≠ 0 ∧ _item_matches g item F l = true := by
  have h := (item_matches_iff g item a l).mp hm
  rcases h with ⟨hI, c⟩ | ⟨hM, h⟩ | ⟨hM, hW, hT, h⟩
  · exact ⟨FIRE_INSCRIBED, by decide, hI,
      (item_matches_iff g item _ l).mpr (Or.inl ⟨by decide, c⟩)⟩
  · rcases h with ⟨h, c⟩ | ⟨h, c⟩ | ⟨h, c⟩ | ⟨h, c⟩ | ⟨h, c⟩ | ⟨h, c⟩
    · exact ⟨FIRE_DART, by decide, h,
        (item_matches_iff g item _ l).mpr (Or.inr (Or.inl ⟨hM, Or.inl ⟨by decide, c⟩⟩))⟩
    · exact ⟨FIRE_STONE, by decide, h,
        (item_matches_iff g item _ l).mpr
          (Or.inr (Or.inl ⟨hM, Or.inr (Or.inl ⟨by decide, c⟩)⟩))⟩
    · exact ⟨FIRE_JAVELIN, by decide, h,
        (item_matches_iff g item _ l).mpr
          (Or.inr (Or.inl ⟨hM, Or.inr (Or.inr (Or.inl ⟨by decide, c⟩))⟩))⟩
    · exact ⟨FIRE_ROCK, by decide, h,
        (item_matches_iff g item _ l).mpr
          (Or.inr (Or.inl ⟨hM, Or.inr (Or.inr (Or.inr (Or.inl ⟨by decide, c⟩)))⟩))⟩
    · exact ⟨FIRE_NET, by decide, h,
        (item_matches_iff g item _ l).mpr
          (Or.inr (Or.inl ⟨hM,
            Or.inr (Or.inr (Or.inr (Or.inr (Or.inl ⟨by decide, c⟩))))⟩))⟩
    · exact ⟨FIRE_LAUNCHER, by decide, h,
        (item_matches_iff g item _ l).mpr
          (Or.inr (Or.inl ⟨hM,
            Or.inr (Or.inr (Or.inr (Or.inr (Or.inr ⟨by decide, c⟩))))⟩))⟩
  · rcases h with ⟨h, c⟩ | ⟨h, c⟩ | ⟨h, c⟩ | ⟨h, c⟩ | ⟨h, c⟩
    · exact ⟨FIRE_RETURNING, by decide, h,
        (item_matches_iff g item _ l).mpr
          (Or.inr (Or.inr ⟨hM, hW, hT, Or.inl ⟨by decide, c⟩⟩))⟩
    · exact ⟨FIRE_DAGGER, by decide, h,
        (item_matches_iff g item _ l).mpr
          (Or.inr (Or.inr ⟨hM, hW, hT, Or.inr (Or.inl ⟨by decide, c⟩)⟩))⟩
    · exact ⟨FIRE_SPEAR, by decide, h,
        (item_matches_iff g item _ l).mpr
          (Or.inr (Or.inr ⟨hM, hW, hT, Or.inr (Or.inr (Or.inl ⟨by decide, c⟩))⟩))⟩
    · exact ⟨FIRE_HAND_AXE, by decide, h,
        (item_matches_iff g item _ l).mpr
          (Or.inr (Or.inr ⟨hM, hW, hT,
            Or.inr (Or.inr (Or.inr (Or.inl ⟨by decide, c⟩)))⟩))⟩
    · exact ⟨FIRE_CLUB, by decide, h,
        (item_matches_iff g item _ l).mpr
          (Or.inr (Or.inr ⟨hM, hW, hT,
            Or.inr (Or.inr (Or.inr (Or.inr ⟨by decide, c⟩)))⟩))⟩

/-- C21.  The matcher `_item_matches` distributes over bitmask union: for
every valid item, optional launcher and `fire_type` masks `a` and `b`,
`_item_matches(item, a | b, launcher) = _item_matches(item, a, launcher) ||
_item_matches(item, b, launcher)`, and `_item_matches(item, 0, launcher)` is
false; a multi-kind preference entry therefore matches an item exactly when
one of its single-kind flags does. -/
theorem item_matches_union (g : Game) (item : item_def) (launcher : Option item_def)
    (a b : Nat) (_hvalid : g.X.is_valid_item item = true) :
    _item_matches g item (a ||| b) launcher
        = (_item_matches g item a launcher || _item_matches g item b launcher)
      ∧ _item_matches g item 0 launcher = false
      ∧ (_item_matches g item a launcher = true ↔
          ∃ F ∈ single_kind_flags, a &&& F ≠ 0 ∧ _item_matches g item F launcher = true) := by
  refine ⟨item_matches_lor g item a b launcher, item_matches_zero g item launcher, ?_⟩
  constructor
  · exact item_matches_single_exists g item a launcher
  · rintro ⟨F, hF, ha, hm⟩
    exact item_matches_of_single g item a F launcher hF ha hm

theorem item_matches_union_witness :
    (archer_game true).X.is_valid_item sample_arrows = true
      ∧ _item_matches (archer_game true) sample_arrows (FIRE_DART ||| FIRE_LAUNCHER)
          (some sample_bow)
        = (_item_matches (archer_game true) sample_arrows FIRE_DART (some sample_bow)
          || _item_matches (archer_game true) sample_arrows FIRE_LAUNCHER (some sample_bow))
      ∧ _item_matches (archer_game true) sample_arrows (FIRE_DART ||| FIRE_LAUNCHER)
          (some sample_bow) = true :=
  ⟨by decide,
    (item_matches_union (archer_game true) sample_arrows (some sample_bow) FIRE_DART
      FIRE_LAUNCHER (by decide)).1,
    by decide⟩

end Quiver
